import Mathlib

/-! The EWS collection backend (`src/collection/e-ews-backend.c`).

A shallow embedding of the folder-synchronisation and connection-lifecycle
engine of the collection backend.  The private data of the backend, the
settings object, the source registry and the main-loop idle queue are one
explicit `State`; every C function becomes a state-passing function.  Replies
of the remote service and of the authentication machinery are arguments of
the function that consumes them.
-/

namespace EwsBackend

/-! ## Data model -/

/-- Unique local identifier of a data source (`e_source_get_uid`). -/
abbrev Uid := Nat

/-- Modelled from the spec: the folder kinds of a RemoteFolder
(`EEwsFolderType`, declared in `e-ews-folder.h`, not part of the sources at
hand): one of Mail, Calendar, Tasks, Contacts, Unknown. -/
inductive EEwsFolderType where
  | unknown
  | mail
  | calendar
  | contacts
  | tasks
  deriving DecidableEq, Repr

/-- The `EwsFolderId` pair; both members are C strings and may be NULL. -/
structure EwsFolderId where
  id : Option String
  change_key : Option String
  deriving DecidableEq, Repr

/-- The part of an `EEwsFolder` the backend reads: id, name, folder type. -/
structure EEwsFolder where
  fid : EwsFolderId
  name : Option String
  folder_type : EEwsFolderType
  deriving DecidableEq, Repr

/-- An `ESourceBackend` extension (address book, calendar, task list). -/
structure ESourceBackend where
  backend_name : Option String
  deriving DecidableEq, Repr

/-- The `ESourceEwsFolder` extension: remote folder id and change key. -/
structure ESourceEwsFolder where
  id : Option String
  change_key : Option String
  deriving DecidableEq, Repr

/-- An `ESource` as far as the backend touches it.  An extension that is
`none` is one the source does not have (`e_source_has_extension` is false);
`e_source_get_extension` creates it with default members. -/
structure ESource where
  uid : Uid
  parent : Option Uid
  display_name : Option String
  address_book : Option ESourceBackend
  calendar : Option ESourceBackend
  task_list : Option ESourceBackend
  ews_folder : Option ESourceEwsFolder
  /-- The offline extension; the member is `stay-synchronized`. -/
  offline : Option Bool
  /-- The autocomplete extension; the member is `include-me`. -/
  autocomplete : Option Bool
  mail_account : Bool
  mail_identity : Bool
  mail_transport : Bool
  /-- The authentication extension; the member is `user`. -/
  authentication : Option (Option String)
  writable : Bool
  remote_deletable : Bool
  write_directory : Option String
  deriving DecidableEq, Repr

/-- An `EEwsConnection` object: `serial` tells apart the objects made by
successive `e_ews_connection_new` calls. -/
structure EEwsConnection where
  serial : Nat
  hosturl : Option String
  deriving DecidableEq, Repr

/-- Error codes of the `GError`s the backend sees. -/
inductive GErrorCode where
  | invalid_argument
  | cancelled
  | authentication_failed
  | network
  | protocol
  deriving DecidableEq, Repr

/-- A `GError`: code and message. -/
structure GError where
  code : GErrorCode
  message : String
  deriving DecidableEq, Repr

/-- The members of `CamelEwsSettings` the backend reads and writes. -/
structure CamelEwsSettings where
  hosturl : Option String
  gal_uid : Option Uid
  oal_selected : Option String
  deriving DecidableEq, Repr

/-- The `struct _EEwsBackendPrivate` (locks left out; `gal_source` is never
used by the code). -/
structure EEwsBackendPrivate where
  /-- Folder ID -> ESource -/
  folders : List (String × ESource)
  oal_selected : Option String
  sync_state : Option String
  connection : Option EEwsConnection
  deriving DecidableEq, Repr

/-- The `struct _SyncFoldersClosure` (the backend pointer is the one backend
of the state). -/
structure SyncFoldersClosure where
  folders_created : List EEwsFolder
  folders_deleted : List (Option String)
  folders_updated : List EEwsFolder
  deriving DecidableEq, Repr

/-- Calls made to the collaborators, in the order they are made. -/
inductive Call where
  | authenticate (connection : EEwsConnection)
  | sync_folder_hierarchy (connection : EEwsConnection) (sync_state : Option String)
  | create_folder (connection : EEwsConnection) (parent_folder_id : String)
      (folder_name : Option String) (folder_type : EEwsFolderType)
  | delete_folder (connection : EEwsConnection) (folder_id : Option String)
      (delete_type : String)
  | add_source (source : ESource)
  | remove_source (source : ESource)
  deriving DecidableEq, Repr

/-- The backend together with the collaborators it acts on. -/
structure State where
  priv : EEwsBackendPrivate
  /-- The uid of the collection source (`e_backend_get_source`). -/
  collection_uid : Uid
  /-- The `display-name` of the collection source. -/
  collection_display_name : Option String
  /-- The `identity` of the collection extension of the collection source. -/
  collection_identity : Option String
  /-- The result of `e_collection_backend_get_cache_dir`. -/
  cache_dir : Option String
  settings : CamelEwsSettings
  /-- The sources registered in the `ESourceRegistryServer`. -/
  registry : List ESource
  /-- The next unique identifier handed to a new source. -/
  next_uid : Nat
  /-- The serial of the next `EEwsConnection` object. -/
  next_connection : Nat
  /-- The idle sources queued on the main loop, oldest first. -/
  idle : List SyncFoldersClosure
  /-- The calls made so far. -/
  calls : List Call
  deriving DecidableEq, Repr

/-! ## The folder hash table -/

/-- The value stored under a key (`g_hash_table_lookup`). -/
def g_hash_table_lookup (key : String) : List (String × ESource) → Option ESource
  | [] => none
  | (k, v) :: rest => if k = key then some v else g_hash_table_lookup key rest

/-- Store a value under a key; the value of a key already present is
replaced (`g_hash_table_insert`). -/
def g_hash_table_insert (key : String) (value : ESource) :
    List (String × ESource) → List (String × ESource)
  | [] => [(key, value)]
  | (k, v) :: rest =>
    if k = key then (key, value) :: rest else (k, v) :: g_hash_table_insert key value rest

/-- Drop a key (`g_hash_table_remove`). -/
def g_hash_table_remove (key : String) (table : List (String × ESource)) :
    List (String × ESource) :=
  table.filter (fun e => decide (e.1 ≠ key))

/-- The function `ews_backend_folders_contains`. -/
def ews_backend_folders_contains (st : State) (folder_id : String) : Bool :=
  (g_hash_table_lookup folder_id st.priv.folders).isSome

/-- The function `ews_backend_folders_insert`. -/
def ews_backend_folders_insert (folder_id : String) (source : ESource) (st : State) : State :=
  { st with priv := { st.priv with folders := g_hash_table_insert folder_id source st.priv.folders } }

/-- The function `ews_backend_folders_lookup`. -/
def ews_backend_folders_lookup (st : State) (folder_id : String) : Option ESource :=
  g_hash_table_lookup folder_id st.priv.folders

/-- The function `ews_backend_folders_remove`. -/
def ews_backend_folders_remove (folder_id : String) (st : State) : State :=
  { st with priv := { st.priv with folders := g_hash_table_remove folder_id st.priv.folders } }

/-! ## Registry notifications -/

/-- Whether the child carries one of the mail extensions (`is_mail`). -/
def is_mail (child_source : ESource) : Bool :=
  child_source.mail_account || child_source.mail_identity || child_source.mail_transport

/-- The child source after the property bindings of `ews_backend_child_added`
have been made with `G_BINDING_SYNC_CREATE`: a mail child takes the display
name of the collection, and its authentication user the collection identity. -/
def child_added_bindings (st : State) (child_source : ESource) : ESource :=
  if is_mail child_source then
    { child_source with
      display_name := st.collection_display_name
      authentication :=
        match child_source.authentication with
        | some _ => some st.collection_identity
        | none => none }
  else child_source

/-- The function `ews_backend_child_added`.  The property bindings act on
the child object itself, so the child as it stands afterwards is handed back
with the state; then the folder is tracked in the hash table by folder ID. -/
def ews_backend_child_added (child_source : ESource) (st : State) : ESource × State :=
  let child := child_added_bindings st child_source
  match child.ews_folder with
  | some extension =>
    match extension.id with
    | some folder_id => (child, ews_backend_folders_insert folder_id child st)
    | none => (child, st)
  | none => (child, st)

/-- The function `ews_backend_child_removed`. -/
def ews_backend_child_removed (child_source : ESource) (st : State) : State :=
  match child_source.ews_folder with
  | some extension =>
    match extension.id with
    | some folder_id => ews_backend_folders_remove folder_id st
    | none => st
  | none => st

/-- Modelled from the spec: the registry operation `add_source(source)` of
the external source registry.  The source becomes registered, and when it is
a child of the collection the registry reports "child added" to the backend. -/
def e_source_registry_server_add_source (source : ESource) (st : State) : State :=
  let st1 := { st with calls := st.calls ++ [Call.add_source source] }
  if source.parent = some st.collection_uid then
    let (child, st2) := ews_backend_child_added source st1
    { st2 with registry := st2.registry ++ [child] }
  else { st1 with registry := st1.registry ++ [source] }

/-- Modelled from the spec: the registry operation `remove_source(source)`
of the external source registry.  A registered source stops being registered,
and when it is a child of the collection the registry reports "child removed"
to the backend. -/
def e_source_registry_server_remove_source (source : ESource) (st : State) : State :=
  let st1 := { st with calls := st.calls ++ [Call.remove_source source] }
  if source ∈ st.registry then
    let st2 := { st1 with registry := st.registry.filter (fun r => decide (r ≠ source)) }
    if source.parent = some st.collection_uid then ews_backend_child_removed source st2 else st2
  else st1

/-- Modelled from the spec: the registry operation `resolve(id)` of the
external source registry (`e_source_registry_server_ref_source`). -/
def e_source_registry_server_ref_source (st : State) (uid : Uid) : Option ESource :=
  st.registry.find? (fun r => decide (r.uid = uid))

/-- Modelled from the spec: `e_collection_backend_new_child` of the external
collection backend class gives a new source with a unique local identifier
that is a child of the collection; it has no extension yet.  The resource id
it is given does not show in the source. -/
def e_collection_backend_new_child (_resource_id : String) (st : State) : ESource × State :=
  ({ uid := st.next_uid
     parent := some st.collection_uid
     display_name := none
     address_book := none
     calendar := none
     task_list := none
     ews_folder := none
     offline := none
     autocomplete := none
     mail_account := false
     mail_identity := false
     mail_transport := false
     authentication := none
     writable := false
     remote_deletable := false
     write_directory := none },
   { st with next_uid := st.next_uid + 1 })

/-! ## The reconciler -/

/-- The function `ews_backend_new_child`.  The result is `none` where the C
function returns NULL: for a folder type other than calendar, tasks and
contacts, and for a NULL folder id, which `e_collection_backend_new_child`
refuses. -/
def ews_backend_new_child (folder : EEwsFolder) (st : State) : Option ESource × State :=
  match folder.fid.id with
  | none => (none, st)
  | some id =>
    let (source0, st1) := e_collection_backend_new_child id st
    let source1 := { source0 with display_name := folder.name }
    let typed : Option ESource :=
      match folder.folder_type with
      | EEwsFolderType.calendar =>
        some { source1 with calendar := some { backend_name := some "ews" } }
      | EEwsFolderType.tasks =>
        some { source1 with task_list := some { backend_name := some "ews" } }
      | EEwsFolderType.contacts =>
        some { source1 with address_book := some { backend_name := some "ews" } }
      | _ => none
    match typed with
    | none => (none, st1)
    | some source2 =>
      (some { source2 with
          ews_folder := some { id := some id, change_key := folder.fid.change_key }
          offline := some true
          remote_deletable := true },
        st1)

/-- The function `ews_backend_new_calendar`. -/
def ews_backend_new_calendar (folder : EEwsFolder) (st : State) : Option ESource × State :=
  ews_backend_new_child folder st

/-- The function `ews_backend_new_task_list`. -/
def ews_backend_new_task_list (folder : EEwsFolder) (st : State) : Option ESource × State :=
  ews_backend_new_child folder st

/-- The function `ews_backend_new_address_book`. -/
def ews_backend_new_address_book (folder : EEwsFolder) (st : State) : Option ESource × State :=
  ews_backend_new_child folder st

/-- The body of the loop of `ews_backend_sync_created_folders`, for one
element of the list. -/
def sync_created_folder (folder : EEwsFolder) (st : State) : State :=
  match folder.fid.id with
  | none => st
  | some id =>
    if ews_backend_folders_contains st id then st
    else
      let (source, st1) :=
        match folder.folder_type with
        | EEwsFolderType.calendar => ews_backend_new_calendar folder st
        | EEwsFolderType.tasks => ews_backend_new_task_list folder st
        | EEwsFolderType.contacts => ews_backend_new_address_book folder st
        | _ => (none, st)
      match source with
      | some s => e_source_registry_server_add_source s st1
      | none => st1

/-- The function `ews_backend_sync_created_folders`. -/
def ews_backend_sync_created_folders : List EEwsFolder → State → State
  | [], st => st
  | folder :: rest, st => ews_backend_sync_created_folders rest (sync_created_folder folder st)

/-- The body of the loop of `ews_backend_sync_deleted_folders`, for one
element of the list. -/
def sync_deleted_folder (folder_id : Option String) (st : State) : State :=
  let source : Option ESource :=
    match folder_id with
    | some id => ews_backend_folders_lookup st id
    | none => none
  match source with
  | none => st
  | some s => e_source_registry_server_remove_source s st

/-- The function `ews_backend_sync_deleted_folders`. -/
def ews_backend_sync_deleted_folders : List (Option String) → State → State
  | [], st => st
  | folder_id :: rest, st => ews_backend_sync_deleted_folders rest (sync_deleted_folder folder_id st)

/-- The function `ews_backend_sync_folders_idle_cb`: the reconcile job.
Updated folders are not handled. -/
def ews_backend_sync_folders_idle_cb (closure : SyncFoldersClosure) (st : State) : State :=
  ews_backend_sync_created_folders closure.folders_created
    (ews_backend_sync_deleted_folders closure.folders_deleted st)

/-- The main loop runs the oldest queued idle source, if there is one. -/
def main_loop_iteration (st : State) : State :=
  match st.idle with
  | [] => st
  | closure :: rest => ews_backend_sync_folders_idle_cb closure { st with idle := rest }

/-! ## The connection -/

/-- The first critical section of `e_ews_backend_ref_connection_sync`: the
connection found under the lock, if any. -/
def ref_connection_check (st : State) : Option EEwsConnection :=
  st.priv.connection

/-- The unlocked part of `e_ews_backend_ref_connection_sync`: a new
connection object is made from the host URL of the settings and
`e_backend_authenticate_sync` is called with it. -/
def ref_connection_new (st : State) : EEwsConnection × State :=
  let connection : EEwsConnection :=
    { serial := st.next_connection, hosturl := st.settings.hosturl }
  (connection,
   { st with
     next_connection := st.next_connection + 1
     calls := st.calls ++ [Call.authenticate connection] })

/-- The end of `e_ews_backend_ref_connection_sync`, after authentication:
`auth_error` is `none` when `e_backend_authenticate_sync` succeeded.  On
success the second critical section releases a connection found in the
backend and stores the new one. -/
def ref_connection_publish (connection : EEwsConnection) (auth_error : Option GError)
    (st : State) : Except GError EEwsConnection × State :=
  match auth_error with
  | none =>
    (Except.ok connection, { st with priv := { st.priv with connection := some connection } })
  | some e => (Except.error e, st)

/-- The function `e_ews_backend_ref_connection_sync`, run without
interference from other threads; `auth_error` is the outcome of
`e_backend_authenticate_sync`, should it be called. -/
def e_ews_backend_ref_connection_sync (auth_error : Option GError) (st : State) :
    Except GError EEwsConnection × State :=
  match ref_connection_check st with
  | some connection => (Except.ok connection, st)
  | none =>
    let (connection, st1) := ref_connection_new st
    ref_connection_publish connection auth_error st1

/-! ## The synchronisation pass -/

/-- What `e_ews_connection_sync_folder_hierarchy_sync` hands back when it
succeeds. -/
structure HierarchyDelta where
  sync_state : Option String
  includes_last_folder : Bool
  folders_created : List EEwsFolder
  folders_updated : List EEwsFolder
  folders_deleted : List (Option String)
  deriving DecidableEq, Repr

/-- The function `e_ews_backend_sync_folders_sync`; `delta` is the reply of
`e_ews_connection_sync_folder_hierarchy_sync`, should it be called.  The
result is `none` for TRUE and the error for FALSE. -/
def e_ews_backend_sync_folders_sync (auth_error : Option GError)
    (delta : Except GError HierarchyDelta) (st : State) : Option GError × State :=
  match e_ews_backend_ref_connection_sync auth_error st with
  | (Except.error e, st1) => (some e, st1)
  | (Except.ok connection, st1) =>
    let sync_state := st1.priv.sync_state
    let st2 := { st1 with calls := st1.calls ++ [Call.sync_folder_hierarchy connection sync_state] }
    match delta with
    | Except.ok d =>
      let closure : SyncFoldersClosure :=
        { folders_created := d.folders_created
          folders_deleted := d.folders_deleted
          folders_updated := d.folders_updated }
      let st3 := { st2 with idle := st2.idle ++ [closure] }
      (none, { st3 with priv := { st3.priv with sync_state := d.sync_state } })
    | Except.error e => (some e, st2)

/-! ## The directory placeholder -/

/-- The C idiom `strrchr (s, ':')` followed by `*cp++ = 0`: the characters
before the last colon and the characters after it, or `none` when the string
has no colon. -/
def strrchr_colon : List Char → Option (List Char × List Char)
  | [] => none
  | c :: rest =>
    match strrchr_colon rest with
    | some (before, after) => some (c :: before, after)
    | none => if c = ':' then some ([], rest) else none

/-- The start of `ews_backend_add_gal_source`: the source the stored
directory-source uid resolves to in the registry, if a uid is stored and it
resolves. -/
def gal_source_resolved (st : State) : Option ESource :=
  match st.settings.gal_uid with
  | some gal_uid => e_source_registry_server_ref_source st gal_uid
  | none => none

/-- The parsing of the `oal-selected` setting in `ews_backend_add_gal_source`,
"supposed to be in the form: ID ':' NAME": the id and the name, or `none`
when the setting is NULL or has no colon. -/
def parse_oal_selected (oal_selected : Option String) : Option (String × String) :=
  match oal_selected with
  | some selected =>
    match strrchr_colon selected.data with
    | some (before, after) => some (String.mk before, String.mk after)
    | none => none
  | none => none

/-- The source `ews_backend_add_gal_source` configures from the new child it
is given. -/
def gal_source (source : ESource) (display_name oal_id : String) : ESource :=
  { source with
    display_name := some display_name
    address_book := some { backend_name := some "ews" }
    autocomplete := some true
    ews_folder := some { id := some oal_id, change_key := none }
    offline := some true }

/-- The function `ews_backend_add_gal_source`.  After `*cp++ = 0` the string
`oal_selected` that the backend keeps ends where the colon was: it is the id
alone. -/
def ews_backend_add_gal_source (st : State) : State :=
  match gal_source_resolved st with
  | some _ => st
  | none =>
    let parsed := parse_oal_selected st.settings.oal_selected
    let oal_selected : Option String := parsed.map Prod.fst
    let display_name : String :=
      match parsed with
      | some (_, name) => name
      | none => "Global Address List"
    let oal_id : String :=
      match parsed with
      | some (id, _) => id
      | none => "global-address-list"
    let st1 := { st with priv := { st.priv with oal_selected := oal_selected } }
    let new_child := e_collection_backend_new_child oal_id st1
    let source := gal_source new_child.1 display_name oal_id
    let st3 := e_source_registry_server_add_source source new_child.2
    { st3 with settings := { st3.settings with gal_uid := some source.uid } }

/-- The function `ews_backend_source_changed_cb`. -/
def ews_backend_source_changed_cb (st : State) : State :=
  if st.settings.oal_selected = st.priv.oal_selected then st
  else
    let st1 :=
      match st.settings.gal_uid with
      | some gal_uid =>
        let st0 :=
          match e_source_registry_server_ref_source st gal_uid with
          | some source => e_source_registry_server_remove_source source st
          | none => st
        { st0 with settings := { st0.settings with gal_uid := none } }
      | none => st
    ews_backend_add_gal_source st1

/-- The function `ews_backend_populate`, but for the synchronisation pass it
starts in a worker thread: the directory placeholder is provisioned. -/
def ews_backend_populate (st : State) : State :=
  ews_backend_add_gal_source st

/-! ## Creating and deleting a resource -/

/-- The message of the error `ews_backend_create_resource_sync` sets for a
source without a suitable extension. -/
def create_resource_message (display_name : Option String) : String :=
  "Could not determine a suitable folder class for a new folder named \x27" ++
    display_name.getD "(null)" ++ "\x27"

/-- The message of the error `ews_backend_delete_resource_sync` sets for a
source without the folder extension. -/
def delete_resource_message (display_name : Option String) : String :=
  "Data source \x27" ++ display_name.getD "(null)" ++
    "\x27 does not represent an Exchange Web Services folder"

/-- The folder type and parent folder id `ews_backend_create_resource_sync`
settles on: the last of address book, calendar, task list the source has. -/
def create_resource_target (source : ESource) : EEwsFolderType × Option String :=
  let t0 : EEwsFolderType × Option String := (EEwsFolderType.unknown, none)
  let t1 := if source.address_book.isSome then (EEwsFolderType.contacts, some "contacts") else t0
  let t2 := if source.calendar.isSome then (EEwsFolderType.calendar, some "calendar") else t1
  if source.task_list.isSome then (EEwsFolderType.tasks, some "tasks") else t2

/-- The function `ews_backend_create_resource_sync`; `reply` is what
`e_ews_connection_create_folder_sync` hands back, should it be called.  The
result is `none` for TRUE and the error for FALSE, with the source as the
call leaves it. -/
def ews_backend_create_resource_sync (auth_error : Option GError)
    (reply : Except GError EwsFolderId) (source : ESource) (st : State) :
    Option GError × ESource × State :=
  match e_ews_backend_ref_connection_sync auth_error st with
  | (Except.error e, st1) => (some e, source, st1)
  | (Except.ok connection, st1) =>
    match create_resource_target source with
    | (_, none) =>
      (some { code := GErrorCode.invalid_argument
              message := create_resource_message source.display_name },
       source, st1)
    | (folder_type, some parent_folder_id) =>
      let st2 := { st1 with calls := st1.calls ++
        [Call.create_folder connection parent_folder_id source.display_name folder_type] }
      match reply with
      | Except.error e => (some e, source, st2)
      | Except.ok out_folder_id =>
        let source1 : ESource :=
          { source with
            ews_folder := some { id := out_folder_id.id, change_key := out_folder_id.change_key } }
        let source2 : ESource :=
          { source1 with
            parent := some st2.collection_uid
            write_directory := st2.cache_dir
            writable := true
            remote_deletable := true }
        (none, source2, e_source_registry_server_add_source source2 st2)

/-- The function `ews_backend_delete_resource_sync`; `reply` is the error of
`e_ews_connection_delete_folder_sync`, should it be called and fail. -/
def ews_backend_delete_resource_sync (auth_error : Option GError)
    (reply : Option GError) (source : ESource) (st : State) : Option GError × State :=
  match e_ews_backend_ref_connection_sync auth_error st with
  | (Except.error e, st1) => (some e, st1)
  | (Except.ok connection, st1) =>
    match source.ews_folder with
    | none =>
      (some { code := GErrorCode.invalid_argument
              message := delete_resource_message source.display_name },
       st1)
    | some extension =>
      let st2 := { st1 with calls := st1.calls ++
        [Call.delete_folder connection extension.id "HardDelete"] }
      match reply with
      | some e => (some e, st2)
      | none => (none, e_source_registry_server_remove_source source st2)

/-! ## Vocabulary of the properties -/

/-- The folder types the reconciler mirrors. -/
def mirrored_type (t : EEwsFolderType) : Bool :=
  match t with
  | EEwsFolderType.calendar => true
  | EEwsFolderType.tasks => true
  | EEwsFolderType.contacts => true
  | _ => false

/-- The source `ews_backend_new_child` configures for a folder of a mirrored
type, written out. -/
def mirrored_source (folder : EEwsFolder) (id : String) (st : State) : ESource :=
  { uid := st.next_uid
    parent := some st.collection_uid
    display_name := folder.name
    address_book :=
      if folder.folder_type = EEwsFolderType.contacts then some { backend_name := some "ews" }
      else none
    calendar :=
      if folder.folder_type = EEwsFolderType.calendar then some { backend_name := some "ews" }
      else none
    task_list :=
      if folder.folder_type = EEwsFolderType.tasks then some { backend_name := some "ews" }
      else none
    ews_folder := some { id := some id, change_key := folder.fid.change_key }
    offline := some true
    autocomplete := none
    mail_account := false
    mail_identity := false
    mail_transport := false
    authentication := none
    writable := false
    remote_deletable := true
    write_directory := none }

/-- A created folder the reconciler passes over in this state: its id is
NULL, its type is not mirrored, or its id is already in the hash table. -/
def Settled (folder : EEwsFolder) (st : State) : Prop :=
  folder.fid.id = none ∨ mirrored_type folder.folder_type = false ∨
    ∃ id, folder.fid.id = some id ∧ ews_backend_folders_contains st id = true

/-- The folder id under which the "child added" and "child removed" handlers
track a source: the id of its folder extension, if it has the extension and
the id is not NULL. -/
def tracked_folder_id (source : ESource) : Option String :=
  match source.ews_folder with
  | some extension => extension.id
  | none => none

/-- Whether a source is a child of the collection. -/
def is_child (st : State) (source : ESource) : Bool :=
  decide (source.parent = some st.collection_uid)

/-- The source the registry holds after `add_source`: a child of the
collection is held as the "child added" handler leaves it. -/
def registered_form (st : State) (source : ESource) : ESource :=
  if is_child st source then child_added_bindings st source else source

/-- The local sources of a remote folder: the registered children of the
collection that carry the folder extension with this id. -/
def local_sources (folder_id : String) (st : State) : List ESource :=
  st.registry.filter (fun s => is_child st s && decide (tracked_folder_id s = some folder_id))

/-- No stale entry: every entry of the folder index is a registered child of
the collection that carries the folder extension with the id of the entry. -/
def Tracked (st : State) : Prop :=
  ∀ e ∈ st.priv.folders,
    e.2 ∈ st.registry ∧ is_child st e.2 = true ∧ tracked_folder_id e.2 = some e.1

/-- No missing entry: the folder id of every registered child of the
collection is a key of the folder index, mapped to that child. -/
def Mirrored (st : State) : Prop :=
  ∀ s ∈ st.registry, is_child st s = true →
    ∀ id ∈ tracked_folder_id s, g_hash_table_lookup id st.priv.folders = some s

/-- No two registered children of the collection carry the same folder id. -/
def DistinctIds (st : State) : Prop :=
  ∀ s ∈ st.registry, ∀ t ∈ st.registry, is_child st s = true → is_child st t = true →
    ∀ id ∈ tracked_folder_id s, tracked_folder_id t = some id → s = t

/-- The part of the state the folder index and the registry make up. -/
def mirror (st : State) : List (String × ESource) × List ESource × Uid :=
  (st.priv.folders, st.registry, st.collection_uid)

/-- A backend that has just been made: the folder index is empty and no
child of the collection is registered yet. -/
def Initial (st : State) : Prop :=
  st.priv.folders = [] ∧ ∀ s ∈ st.registry, is_child st s = false

/-- What can happen to the backend: the registry adds or removes a source,
the main loop runs a reconcile job, a synchronisation pass or a connection
request runs, a resource is created or deleted, the directory placeholder is
provisioned, or the directory selection of the settings changes. -/
inductive Step : State → State → Prop where
  | source_added (st : State) (source : ESource) :
    Step st (e_source_registry_server_add_source source st)
  | source_removed (st : State) (source : ESource) :
    Step st (e_source_registry_server_remove_source source st)
  | reconcile (st : State) (closure : SyncFoldersClosure) :
    Step st (ews_backend_sync_folders_idle_cb closure st)
  | main_loop (st : State) :
    Step st (main_loop_iteration st)
  | ref_connection (st : State) (auth_error : Option GError) :
    Step st (e_ews_backend_ref_connection_sync auth_error st).2
  | sync_folders (st : State) (auth_error : Option GError)
      (delta : Except GError HierarchyDelta) :
    Step st (e_ews_backend_sync_folders_sync auth_error delta st).2
  | create_resource (st : State) (auth_error : Option GError)
      (reply : Except GError EwsFolderId) (source : ESource) :
    Step st (ews_backend_create_resource_sync auth_error reply source st).2.2
  | delete_resource (st : State) (auth_error : Option GError) (reply : Option GError)
      (source : ESource) :
    Step st (ews_backend_delete_resource_sync auth_error reply source st).2
  | populate (st : State) :
    Step st (ews_backend_populate st)
  | settings_changed (st : State) (oal_selected : Option String) :
    Step st (ews_backend_source_changed_cb
      { st with settings := { st.settings with oal_selected := oal_selected } })

/-- The states the backend reaches from an initial state when every state on
the way satisfies `ok`. -/
inductive Reachable (ok : State → Prop) : State → Prop where
  | init (st : State) : Initial st → ok st → Reachable ok st
  | step (st next : State) : Reachable ok st → Step st next → ok next → Reachable ok next

/-- The state `next` comes from the state `st` by steps that keep the folder
index in agreement with the registry, but for one last `add_source`. -/
def Follows (st next : State) : Prop :=
  ∃ mid : State, (Tracked st → Tracked mid) ∧ (Mirrored st → Mirrored mid) ∧
    (mirror next = mirror mid ∨
      ∃ source, mirror next = mirror (e_source_registry_server_add_source source mid))

/-! ## Concrete states -/

/-- A backend that has just been made for a collection with uid 0. -/
def example_state : State :=
  { priv := { folders := [], oal_selected := none, sync_state := none, connection := none }
    collection_uid := 0
    collection_display_name := some "Exchange"
    collection_identity := some "user"
    cache_dir := some "/cache"
    settings := { hosturl := some "https://ews.example/EWS", gal_uid := none, oal_selected := none }
    registry := []
    next_uid := 1
    next_connection := 0
    idle := []
    calls := [] }

/-- A remote folder with id "X" and change key "ck". -/
def example_folder (name : String) (folder_type : EEwsFolderType) : EEwsFolder :=
  { fid := { id := some "X", change_key := some "ck" }
    name := some name
    folder_type := folder_type }

/-- The state after a reconcile job has mirrored the calendar "A" with id
"X". -/
def mirrored_state : State :=
  ews_backend_sync_folders_idle_cb
    { folders_created := [example_folder "A" EEwsFolderType.calendar]
      folders_deleted := []
      folders_updated := [] }
    example_state

/-- The state after the directory selection has then been set to "X:Dir":
the placeholder takes the key "X" of the folder index. -/
def directory_state : State :=
  ews_backend_source_changed_cb
    { mirrored_state with
      settings := { mirrored_state.settings with oal_selected := some "X:Dir" } }

/-- The state after the directory selection has then been set to "Y:Other":
the placeholder for "X" is removed, and the key "X" with it, while the
calendar "A" stays registered. -/
def shadowed_state : State :=
  ews_backend_source_changed_cb
    { directory_state with
      settings := { directory_state.settings with oal_selected := some "Y:Other" } }

/-- A delta that deletes the folder "X" and creates it again as the task
list "New". -/
def example_closure : SyncFoldersClosure :=
  { folders_created := [example_folder "New" EEwsFolderType.tasks]
    folders_deleted := [some "X"]
    folders_updated := [] }

/-- Two callers have found no connection in `example_state`; this is the
state after the first of them has authenticated and published its connection. -/
def first_published : State :=
  (ref_connection_publish (ref_connection_new example_state).1 none
    (ref_connection_new example_state).2).2

/-- The state after the second caller, which had found no connection either,
has authenticated and published its connection in turn. -/
def second_published : State :=
  (ref_connection_publish (ref_connection_new first_published).1 none
    (ref_connection_new first_published).2).2

/-- A state with a published connection. -/
def connected_state : State :=
  { example_state with
    priv := { example_state.priv with
      connection := some { serial := 7, hosturl := some "https://ews.example/EWS" }
      sync_state := some "token-1" } }

/-- A reply of the hierarchy request. -/
def example_delta : HierarchyDelta :=
  { sync_state := some "token-2"
    includes_last_folder := true
    folders_created := [example_folder "A" EEwsFolderType.calendar]
    folders_updated := []
    folders_deleted := [some "Z"] }

/-- The source as `ews_backend_create_resource_sync` configures it once the
remote service has made the folder: the folder id and change key are stored
on the folder extension, the collection is the parent, the cache directory
the write directory, and the source is writable and remotely deletable. -/
def created_resource (st : State) (source : ESource) (out_folder_id : EwsFolderId) : ESource :=
  { source with
    ews_folder := some { id := out_folder_id.id, change_key := out_folder_id.change_key }
    parent := some st.collection_uid
    write_directory := st.cache_dir
    writable := true
    remote_deletable := true }

/-- A source without any extension, as a caller may hand it to
`create_resource` or `delete_resource`. -/
def plain_source : ESource :=
  { uid := 9
    parent := none
    display_name := some "Notes"
    address_book := none
    calendar := none
    task_list := none
    ews_folder := none
    offline := none
    autocomplete := none
    mail_account := false
    mail_identity := false
    mail_transport := false
    authentication := none
    writable := false
    remote_deletable := false
    write_directory := none }

/-- A calendar source a caller wants created on the server. -/
def calendar_source : ESource :=
  { plain_source with
    display_name := some "Team"
    calendar := some { backend_name := some "ews" } }

/-- An authentication error. -/
def denied : GError :=
  { code := GErrorCode.authentication_failed, message := "denied" }

/-- The state with another directory selection in the settings. -/
def with_oal_selected (st : State) (oal_selected : Option String) : State :=
  { st with settings := { st.settings with oal_selected := oal_selected } }

/-- The new backend after the placeholder has been provisioned for the
selection "abc:Sales". -/
def sales_state : State :=
  ews_backend_add_gal_source (with_oal_selected example_state (some "abc:Sales"))

/-- The new backend after the placeholder has been provisioned for the
selection "a:b:c", whose id is "a:b". -/
def nested_state : State :=
  ews_backend_add_gal_source (with_oal_selected example_state (some "a:b:c"))

/-- The new backend after the placeholder has been provisioned for the
colon-free selection "abc". -/
def colon_free_state : State :=
  ews_backend_add_gal_source (with_oal_selected example_state (some "abc"))

/-- The new backend after the placeholder has been provisioned with no
selection in the settings. -/
def absent_state : State :=
  ews_backend_add_gal_source example_state

/-- The uid, display name and directory id of the registered sources. -/
def registry_summary (st : State) : List (Uid × Option String × Option String) :=
  st.registry.map (fun s => (s.uid, s.display_name, tracked_folder_id s))

/-- The state `mirrored_state` with a published connection. -/
def connected_mirrored_state : State :=
  { mirrored_state with
    priv := { mirrored_state.priv with
      connection := some { serial := 7, hosturl := some "https://ews.example/EWS" } } }

/-- The calendar "A" that mirrors the folder "X" in `mirrored_state`. -/
def mirrored_calendar : ESource :=
  mirrored_source (example_folder "A" EEwsFolderType.calendar) "X" example_state

/-- What a failing call leaves of the state `st` in the state `next`: sync
state, folder index, registry and the directory selection last provisioned
are as they were; the connection is as it was, unless none was published and
the call has authenticated and published its new connection before it failed.
`auth_error` is the outcome of the authentication, should it be attempted. -/
def FailureLeaves (auth_error : Option GError) (st next : State) : Prop :=
  next.priv.sync_state = st.priv.sync_state ∧
  next.priv.folders = st.priv.folders ∧
  next.registry = st.registry ∧
  next.priv.oal_selected = st.priv.oal_selected ∧
  (next.priv.connection = st.priv.connection ∨
    (st.priv.connection = none ∧ auth_error = none ∧
      next.priv.connection =
        some { serial := st.next_connection, hosturl := st.settings.hosturl })) ∧
  ((st.priv.connection ≠ none ∨ auth_error ≠ none) → next.priv = st.priv)

/-- A created calendar whose folder id is the empty string. -/
def empty_id_folder : EEwsFolder :=
  { fid := { id := some "", change_key := none }
    name := some "Blank"
    folder_type := EEwsFolderType.calendar }

/-- A created calendar whose folder id is NULL. -/
def null_id_folder : EEwsFolder :=
  { fid := { id := none, change_key := none }
    name := some "Blank"
    folder_type := EEwsFolderType.calendar }

/-- A child of the collection with the folder extension and the empty string
as folder id. -/
def empty_id_source : ESource :=
  { plain_source with
    parent := some 0
    ews_folder := some { id := some "", change_key := none } }

/-- A child of the collection with the folder extension and no folder id. -/
def null_id_source : ESource :=
  { plain_source with
    parent := some 0
    ews_folder := some { id := none, change_key := none } }

/-! ## Facts about the folder hash table -/

theorem lookup_insert_self (key : String) (value : ESource) (table : List (String × ESource)) :
    g_hash_table_lookup key (g_hash_table_insert key value table) = some value := by
  induction table with
  | nil => simp [g_hash_table_insert, g_hash_table_lookup]
  | cons e rest ih =>
    obtain ⟨k, v⟩ := e
    by_cases h : k = key
    · simp [g_hash_table_insert, g_hash_table_lookup, h]
    · simp [g_hash_table_insert, g_hash_table_lookup, h, ih]

theorem lookup_insert_other (key other : String) (value : ESource)
    (table : List (String × ESource)) (hne : other ≠ key) :
    g_hash_table_lookup other (g_hash_table_insert key value table) =
      g_hash_table_lookup other table := by
  induction table with
  | nil =>
    have h : ¬ key = other := fun h => hne h.symm
    simp [g_hash_table_insert, g_hash_table_lookup, h]
  | cons e rest ih =>
    obtain ⟨k, v⟩ := e
    by_cases h : k = key
    · have h2 : ¬ key = other := fun h => hne h.symm
      have h3 : ¬ k = other := by rw [h]; exact h2
      simp [g_hash_table_insert, g_hash_table_lookup, h, h2]
    · by_cases h4 : k = other
      · subst h4
        simp [g_hash_table_insert, g_hash_table_lookup, h]
      · simp [g_hash_table_insert, g_hash_table_lookup, h, h4, ih]

theorem lookup_remove_self (key : String) (table : List (String × ESource)) :
    g_hash_table_lookup key (g_hash_table_remove key table) = none := by
  induction table with
  | nil => simp [g_hash_table_remove, g_hash_table_lookup]
  | cons e rest ih =>
    obtain ⟨k, v⟩ := e
    by_cases h : k = key
    · simpa [g_hash_table_remove, List.filter_cons, h] using ih
    · simpa [g_hash_table_remove, List.filter_cons, h, g_hash_table_lookup] using ih

theorem lookup_remove_other (key other : String) (table : List (String × ESource))
    (hne : other ≠ key) :
    g_hash_table_lookup other (g_hash_table_remove key table) =
      g_hash_table_lookup other table := by
  induction table with
  | nil => simp [g_hash_table_remove, g_hash_table_lookup]
  | cons e rest ih =>
    obtain ⟨k, v⟩ := e
    by_cases h : k = key
    · subst h
      have h3 : ¬ k = other := fun h => hne h.symm
      simpa [g_hash_table_remove, List.filter_cons, g_hash_table_lookup, h3] using ih
    · by_cases h4 : k = other
      · subst h4
        simp [g_hash_table_remove, List.filter_cons, h, g_hash_table_lookup]
      · simpa [g_hash_table_remove, List.filter_cons, h, g_hash_table_lookup, h4] using ih

theorem lookup_remove_none (key other : String) (table : List (String × ESource))
    (h : g_hash_table_lookup other table = none) :
    g_hash_table_lookup other (g_hash_table_remove key table) = none := by
  by_cases hk : other = key
  · rw [hk]; exact lookup_remove_self key table
  · rw [lookup_remove_other key other table hk]; exact h

/-! ## One created folder -/

theorem sync_created_folder_new (folder : EEwsFolder) (id : String) (st : State)
    (hid : folder.fid.id = some id)
    (hnew : ews_backend_folders_contains st id = false)
    (hkind : mirrored_type folder.folder_type = true) :
    sync_created_folder folder st =
      { st with
        priv := { st.priv with
          folders := g_hash_table_insert id (mirrored_source folder id st) st.priv.folders }
        registry := st.registry ++ [mirrored_source folder id st]
        next_uid := st.next_uid + 1
        calls := st.calls ++ [Call.add_source (mirrored_source folder id st)] } := by
  cases hft : folder.folder_type <;> simp [hft, mirrored_type] at hkind <;>
    simp [sync_created_folder, hid, hnew, hft, ews_backend_new_calendar,
      ews_backend_new_task_list, ews_backend_new_address_book, ews_backend_new_child,
      e_collection_backend_new_child, e_source_registry_server_add_source,
      ews_backend_child_added, child_added_bindings, is_mail, ews_backend_folders_insert,
      mirrored_source]

theorem sync_created_folder_skip (folder : EEwsFolder) (st : State)
    (h : folder.fid.id = none ∨ mirrored_type folder.folder_type = false ∨
      ∃ id, folder.fid.id = some id ∧ ews_backend_folders_contains st id = true) :
    sync_created_folder folder st = st := by
  rcases h with h | h | ⟨id, h1, h2⟩
  · simp [sync_created_folder, h]
  · cases hid : folder.fid.id with
    | none => simp [sync_created_folder, hid]
    | some id =>
      cases hft : folder.folder_type <;> simp [hft, mirrored_type] at h <;>
        simp [sync_created_folder, hid, hft]
  · simp [sync_created_folder, h1, h2]

theorem settled_or_new (folder : EEwsFolder) (st : State) :
    Settled folder st ∨
      ∃ id, folder.fid.id = some id ∧ ews_backend_folders_contains st id = false ∧
        mirrored_type folder.folder_type = true := by
  unfold Settled
  cases hid : folder.fid.id with
  | none => exact Or.inl (Or.inl rfl)
  | some id =>
    cases hk : mirrored_type folder.folder_type with
    | false => exact Or.inl (Or.inr (Or.inl rfl))
    | true =>
      cases hc : ews_backend_folders_contains st id with
      | true => exact Or.inl (Or.inr (Or.inr ⟨id, rfl, hc⟩))
      | false => exact Or.inr ⟨id, rfl, hc, rfl⟩

theorem contains_sync_created_folder (folder : EEwsFolder) (st : State) (key : String)
    (h : ews_backend_folders_contains st key = true) :
    ews_backend_folders_contains (sync_created_folder folder st) key = true := by
  rcases settled_or_new folder st with hs | ⟨id, hid, hnew, hkind⟩
  · rw [sync_created_folder_skip folder st hs]; exact h
  · rw [sync_created_folder_new folder id st hid hnew hkind]
    have hne : key ≠ id := by
      intro heq
      rw [heq, hnew] at h
      exact Bool.noConfusion h
    simp only [ews_backend_folders_contains] at h ⊢
    simpa [lookup_insert_other id key _ _ hne] using h

theorem settled_sync_created_folder_self (folder : EEwsFolder) (st : State) :
    Settled folder (sync_created_folder folder st) := by
  rcases settled_or_new folder st with hs | ⟨id, hid, hnew, hkind⟩
  · rw [sync_created_folder_skip folder st hs]; exact hs
  · refine Or.inr (Or.inr ⟨id, hid, ?_⟩)
    rw [sync_created_folder_new folder id st hid hnew hkind]
    simp [ews_backend_folders_contains, lookup_insert_self]

theorem settled_sync_created_folder (folder other : EEwsFolder) (st : State)
    (h : Settled folder st) : Settled folder (sync_created_folder other st) := by
  rcases h with h | h | ⟨id, hid, hc⟩
  · exact Or.inl h
  · exact Or.inr (Or.inl h)
  · exact Or.inr (Or.inr ⟨id, hid, contains_sync_created_folder other st id hc⟩)

theorem settled_sync_created_folders (folder : EEwsFolder) (list : List EEwsFolder) (st : State)
    (h : Settled folder st) : Settled folder (ews_backend_sync_created_folders list st) := by
  induction list generalizing st with
  | nil => exact h
  | cons other rest ih =>
    exact ih (sync_created_folder other st) (settled_sync_created_folder folder other st h)

theorem sync_created_folders_settled (list : List EEwsFolder) (st : State)
    (h : ∀ folder ∈ list, Settled folder st) :
    ews_backend_sync_created_folders list st = st := by
  induction list with
  | nil => rfl
  | cons folder rest ih =>
    have h1 : sync_created_folder folder st = st :=
      sync_created_folder_skip folder st (h folder (List.mem_cons_self _ _))
    simp only [ews_backend_sync_created_folders, h1]
    exact ih (fun f hf => h f (List.mem_cons_of_mem _ hf))

theorem all_settled_after_sync_created_folders (list : List EEwsFolder) (st : State) :
    ∀ folder ∈ list, Settled folder (ews_backend_sync_created_folders list st) := by
  induction list generalizing st with
  | nil => intro f hf; cases hf
  | cons first rest ih =>
    intro f hf
    rcases List.mem_cons.mp hf with heq | hmem
    · rw [heq]
      exact settled_sync_created_folders first rest _ (settled_sync_created_folder_self first st)
    · exact ih (sync_created_folder first st) f hmem

theorem local_sources_sync_created_folder (folder : EEwsFolder) (st : State) (key : String) :
    (ews_backend_folders_contains st key = true →
      local_sources key (sync_created_folder folder st) =
        local_sources key st) ∧
    ((local_sources key (sync_created_folder folder st)).length =
        (local_sources key st).length ∨
      (ews_backend_folders_contains (sync_created_folder folder st) key = true ∧
        (local_sources key (sync_created_folder folder st)).length =
          (local_sources key st).length + 1)) := by
  rcases settled_or_new folder st with hs | ⟨id, hid, hnew, hkind⟩
  · rw [sync_created_folder_skip folder st hs]
    exact ⟨fun _ => rfl, Or.inl rfl⟩
  · rw [sync_created_folder_new folder id st hid hnew hkind]
    by_cases hk : id = key
    · subst hk
      refine ⟨fun h => ?_, Or.inr ⟨?_, ?_⟩⟩
      · rw [hnew] at h; exact Bool.noConfusion h
      · simp [ews_backend_folders_contains, lookup_insert_self]
      · simp [local_sources, List.filter_append, mirrored_source, is_child, tracked_folder_id]
    · refine ⟨fun _ => ?_, Or.inl ?_⟩ <;>
        simp [local_sources, List.filter_append, mirrored_source, is_child, tracked_folder_id, hk]

theorem local_sources_sync_created_folders (list : List EEwsFolder) (st : State)
    (key : String) :
    (ews_backend_folders_contains st key = true →
      local_sources key (ews_backend_sync_created_folders list st) =
        local_sources key st) ∧
    (local_sources key (ews_backend_sync_created_folders list st)).length ≤
      (local_sources key st).length + 1 := by
  induction list generalizing st with
  | nil => exact ⟨fun _ => rfl, Nat.le_succ _⟩
  | cons folder rest ih =>
    have hstep := local_sources_sync_created_folder folder st key
    have hrest := ih (sync_created_folder folder st)
    simp only [ews_backend_sync_created_folders]
    refine ⟨fun h => ?_, ?_⟩
    · rw [hrest.1 (contains_sync_created_folder folder st key h), hstep.1 h]
    · rcases hstep.2 with heq | ⟨hc, hlen⟩
      · rw [← heq]; exact hrest.2
      · rw [hrest.1 hc, hlen]

/-- Claim C10.  A created folder with a valid id that is not yet in the
folder index and whose type is calendar, tasks or contacts makes the
reconciler register exactly one new source: the registry grows by that one
source, through one `add_source` call, and the folder index maps the id to
it.  The source has the calendar, task-list or address-book extension
respectively (and no other of the three) with backend name "ews", the name
of the folder as display name, the id and change key of the folder, stays
synchronized offline and is remotely deletable. -/
theorem sync_created_folder_registers_one_source (folder : EEwsFolder) (id : String)
    (rest : List EEwsFolder) (st : State)
    (hid : folder.fid.id = some id)
    (hnew : ews_backend_folders_lookup st id = none)
    (hkind : folder.folder_type = EEwsFolderType.calendar ∨
      folder.folder_type = EEwsFolderType.tasks ∨
      folder.folder_type = EEwsFolderType.contacts) :
    ∃ source : ESource,
      ews_backend_sync_created_folders (folder :: rest) st =
        ews_backend_sync_created_folders rest (sync_created_folder folder st) ∧
      (sync_created_folder folder st).registry = st.registry ++ [source] ∧
      (sync_created_folder folder st).calls = st.calls ++ [Call.add_source source] ∧
      ews_backend_folders_lookup (sync_created_folder folder st) id = some source ∧
      (folder.folder_type = EEwsFolderType.calendar →
        source.calendar = some { backend_name := some "ews" } ∧
        source.task_list = none ∧ source.address_book = none) ∧
      (folder.folder_type = EEwsFolderType.tasks →
        source.task_list = some { backend_name := some "ews" } ∧
        source.calendar = none ∧ source.address_book = none) ∧
      (folder.folder_type = EEwsFolderType.contacts →
        source.address_book = some { backend_name := some "ews" } ∧
        source.calendar = none ∧ source.task_list = none) ∧
      source.display_name = folder.name ∧
      source.ews_folder = some { id := folder.fid.id, change_key := folder.fid.change_key } ∧
      source.offline = some true ∧
      source.remote_deletable = true := by
  have hc : ews_backend_folders_contains st id = false := by
    simp only [ews_backend_folders_lookup] at hnew
    simp [ews_backend_folders_contains, hnew]
  have hm : mirrored_type folder.folder_type = true := by
    rcases hkind with h | h | h <;> simp [h, mirrored_type]
  refine ⟨mirrored_source folder id st, rfl, ?_⟩
  rw [sync_created_folder_new folder id st hid hc hm]
  refine ⟨rfl, rfl, ?_, ?_, ?_, ?_, rfl, ?_, rfl, rfl⟩
  · simp [ews_backend_folders_lookup, lookup_insert_self]
  · intro h; simp [mirrored_source, h]
  · intro h; simp [mirrored_source, h]
  · intro h; simp [mirrored_source, h]
  · simp [mirrored_source, hid]

/-! ## The registry operations, written out -/

theorem tracked_folder_id_bindings (st : State) (source : ESource) :
    tracked_folder_id (child_added_bindings st source) = tracked_folder_id source := by
  cases h : is_mail source <;> simp [child_added_bindings, tracked_folder_id, h]

theorem parent_bindings (st : State) (source : ESource) :
    (child_added_bindings st source).parent = source.parent := by
  cases h : is_mail source <;> simp [child_added_bindings, h]

theorem tracked_folder_id_registered_form (st : State) (source : ESource) :
    tracked_folder_id (registered_form st source) = tracked_folder_id source := by
  unfold registered_form
  split
  · exact tracked_folder_id_bindings st source
  · rfl

theorem parent_registered_form (st : State) (source : ESource) :
    (registered_form st source).parent = source.parent := by
  unfold registered_form
  split
  · exact parent_bindings st source
  · rfl

theorem add_source_eq (source : ESource) (st : State) :
    e_source_registry_server_add_source source st =
      { st with
        priv := { st.priv with
          folders :=
            if is_child st source then
              match tracked_folder_id source with
              | some id => g_hash_table_insert id (registered_form st source) st.priv.folders
              | none => st.priv.folders
            else st.priv.folders }
        registry := st.registry ++ [registered_form st source]
        calls := st.calls ++ [Call.add_source source] } := by
  by_cases hc : source.parent = some st.collection_uid
  · cases hm : is_mail source <;> cases hf : source.ews_folder with
    | none =>
      simp [e_source_registry_server_add_source, ews_backend_child_added,
        ews_backend_folders_insert, registered_form, is_child, tracked_folder_id,
        child_added_bindings, hc, hm, hf]
    | some ext =>
      cases hi : ext.id <;>
        simp [e_source_registry_server_add_source, ews_backend_child_added,
          ews_backend_folders_insert, registered_form, is_child, tracked_folder_id,
          child_added_bindings, hc, hm, hf, hi]
  · simp [e_source_registry_server_add_source, registered_form, is_child, hc]

theorem remove_source_eq (source : ESource) (st : State) :
    e_source_registry_server_remove_source source st =
      { st with
        priv := { st.priv with
          folders :=
            if source ∈ st.registry ∧ is_child st source = true then
              match tracked_folder_id source with
              | some id => g_hash_table_remove id st.priv.folders
              | none => st.priv.folders
            else st.priv.folders }
        registry := st.registry.filter (fun r => decide (r ≠ source))
        calls := st.calls ++ [Call.remove_source source] } := by
  by_cases hm : source ∈ st.registry
  · by_cases hc : source.parent = some st.collection_uid
    · cases hf : source.ews_folder with
      | none =>
        simp [e_source_registry_server_remove_source, ews_backend_child_removed,
          ews_backend_folders_remove, is_child, tracked_folder_id, hm, hc, hf]
      | some ext =>
        cases hi : ext.id <;>
          simp [e_source_registry_server_remove_source, ews_backend_child_removed,
            ews_backend_folders_remove, is_child, tracked_folder_id, hm, hc, hf, hi]
    · simp [e_source_registry_server_remove_source, is_child, hm, hc]
  · simp only [e_source_registry_server_remove_source, hm, if_false, false_and]
    have hfil : st.registry.filter (fun r => decide (r ≠ source)) = st.registry := by
      rw [List.filter_eq_self]
      intro r hr
      simp only [decide_eq_true_eq]
      intro heq
      exact hm (heq ▸ hr)
    rw [hfil]

/-! ## The folder index and the registry -/

theorem mem_of_lookup (key : String) (source : ESource) (table : List (String × ESource))
    (h : g_hash_table_lookup key table = some source) : (key, source) ∈ table := by
  induction table with
  | nil => simp [g_hash_table_lookup] at h
  | cons e rest ih =>
    obtain ⟨k, v⟩ := e
    by_cases hk : k = key
    · subst hk
      simp [g_hash_table_lookup] at h
      simp [h]
    · simp [g_hash_table_lookup, hk] at h
      exact List.mem_cons_of_mem _ (ih h)

theorem mem_insert (key : String) (value : ESource) (table : List (String × ESource))
    (e : String × ESource) (h : e ∈ g_hash_table_insert key value table) :
    e = (key, value) ∨ e ∈ table := by
  induction table with
  | nil =>
    simp [g_hash_table_insert] at h
    exact Or.inl h
  | cons head rest ih =>
    obtain ⟨k, v⟩ := head
    by_cases hk : k = key
    · simp [g_hash_table_insert, hk] at h
      rcases h with h | h
      · exact Or.inl h
      · exact Or.inr (List.mem_cons_of_mem _ h)
    · simp [g_hash_table_insert, hk] at h
      rcases h with h | h
      · exact Or.inr (by rw [h]; exact List.mem_cons_self _ _)
      · rcases ih h with h2 | h2
        · exact Or.inl h2
        · exact Or.inr (List.mem_cons_of_mem _ h2)

theorem mem_remove (key : String) (table : List (String × ESource)) (e : String × ESource)
    (h : e ∈ g_hash_table_remove key table) : e ∈ table ∧ e.1 ≠ key := by
  simpa [g_hash_table_remove, List.mem_filter] using h

theorem tracked_add_source (source : ESource) (st : State) (h : Tracked st) :
    Tracked (e_source_registry_server_add_source source st) := by
  rw [add_source_eq]
  intro e he
  have hold : e ∈ st.priv.folders →
      e.2 ∈ st.registry ++ [registered_form st source] ∧ is_child st e.2 = true ∧
        tracked_folder_id e.2 = some e.1 := by
    intro hmem
    obtain ⟨h1, h2, h3⟩ := h e hmem
    exact ⟨List.mem_append_left _ h1, h2, h3⟩
  simp only at he
  show e.2 ∈ st.registry ++ [registered_form st source] ∧ is_child st e.2 = true ∧
    tracked_folder_id e.2 = some e.1
  by_cases hc : is_child st source = true
  · rw [if_pos hc] at he
    cases ht : tracked_folder_id source with
    | none =>
      rw [ht] at he
      exact hold he
    | some id =>
      rw [ht] at he
      rcases mem_insert id _ _ e he with heq | hmem
      · rw [heq]
        refine ⟨by simp, ?_, ?_⟩
        · simp only [is_child, parent_registered_form] at hc ⊢
          exact hc
        · simp [tracked_folder_id_registered_form, ht]
      · exact hold hmem
  · rw [if_neg hc] at he
    exact hold he

theorem tracked_remove_source (source : ESource) (st : State) (h : Tracked st) :
    Tracked (e_source_registry_server_remove_source source st) := by
  rw [remove_source_eq]
  intro e he
  simp only at he
  show e.2 ∈ st.registry.filter (fun r => decide (r ≠ source)) ∧ is_child st e.2 = true ∧
    tracked_folder_id e.2 = some e.1
  have hmem : e ∈ st.priv.folders := by
    split at he
    · split at he
      · exact (mem_remove _ _ e he).1
      · exact he
    · exact he
  obtain ⟨h1, h2, h3⟩ := h e hmem
  refine ⟨?_, h2, h3⟩
  simp only [List.mem_filter, decide_eq_true_eq]
  refine ⟨h1, fun heq => ?_⟩
  rw [heq] at h1 h2 h3
  rw [if_pos ⟨h1, h2⟩, h3] at he
  exact (mem_remove _ _ e he).2 rfl

theorem mirrored_remove_source (source : ESource) (st : State) (h : Mirrored st) :
    Mirrored (e_source_registry_server_remove_source source st) := by
  rw [remove_source_eq]
  intro t ht hc id hid
  simp only [List.mem_filter, decide_eq_true_eq] at ht
  have hct : is_child st t = true := hc
  have hold := h t ht.1 hct id hid
  show g_hash_table_lookup id
    (if source ∈ st.registry ∧ is_child st source = true then
      match tracked_folder_id source with
      | some id => g_hash_table_remove id st.priv.folders
      | none => st.priv.folders
    else st.priv.folders) = some t
  by_cases hs : source ∈ st.registry ∧ is_child st source = true
  · rw [if_pos hs]
    cases hts : tracked_folder_id source with
    | none => exact hold
    | some k =>
      simp only
      have hne : id ≠ k := by
        intro heq
        have hsk := h source hs.1 hs.2 k (by simp [hts])
        rw [heq, hsk] at hold
        exact ht.2 (Option.some.inj hold).symm
      rw [lookup_remove_other k id _ hne]
      exact hold
  · rw [if_neg hs]
    exact hold

theorem mirrored_add_source (source : ESource) (st : State) (h : Mirrored st)
    (hguard : is_child st source = true → ∀ id ∈ tracked_folder_id source,
      ∀ t ∈ st.registry, is_child st t = true → tracked_folder_id t = some id →
        t = registered_form st source) :
    Mirrored (e_source_registry_server_add_source source st) := by
  rw [add_source_eq]
  intro t ht hc id hid
  have hct : is_child st t = true := hc
  simp only [List.mem_append, List.mem_singleton] at ht
  show g_hash_table_lookup id
    (if is_child st source = true then
      match tracked_folder_id source with
      | some id => g_hash_table_insert id (registered_form st source) st.priv.folders
      | none => st.priv.folders
    else st.priv.folders) = some t
  have hid2 : tracked_folder_id t = some id := by simpa using hid
  by_cases hs : is_child st source = true
  · rw [if_pos hs]
    cases hts : tracked_folder_id source with
    | none =>
      simp only
      rcases ht with ht | ht
      · exact h t ht hct id hid
      · rw [ht, tracked_folder_id_registered_form, hts] at hid2
        exact Option.noConfusion hid2
    | some k =>
      simp only
      by_cases hk : id = k
      · subst hk
        rw [lookup_insert_self]
        rcases ht with ht | ht
        · rw [hguard hs id (by simp [hts]) t ht hct hid2]
        · rw [ht]
      · rw [lookup_insert_other k id _ _ hk]
        rcases ht with ht | ht
        · exact h t ht hct id hid
        · rw [ht, tracked_folder_id_registered_form, hts] at hid2
          exact absurd (Option.some.inj hid2).symm hk
  · rw [if_neg hs]
    rcases ht with ht | ht
    · exact h t ht hct id hid
    · rw [ht] at hct
      simp only [is_child, parent_registered_form] at hct hs
      exact absurd hct hs

theorem mirrored_add_source_absent (source : ESource) (st : State) (h : Mirrored st)
    (habsent : ∀ id ∈ tracked_folder_id source, g_hash_table_lookup id st.priv.folders = none) :
    Mirrored (e_source_registry_server_add_source source st) := by
  refine mirrored_add_source source st h (fun _ id hid t ht hct htid => ?_)
  have h1 := h t ht hct id (by simp [htid])
  rw [habsent id hid] at h1
  exact Option.noConfusion h1

/-! ## The deleted pass -/

theorem sync_deleted_folder_absent (folder_id : Option String) (st : State)
    (h : ∀ id, folder_id = some id → ews_backend_folders_lookup st id = none) :
    sync_deleted_folder folder_id st = st := by
  cases folder_id with
  | none => rfl
  | some id => simp [sync_deleted_folder, h id rfl]

theorem sync_deleted_folder_present (id : String) (source : ESource) (st : State)
    (h : ews_backend_folders_lookup st id = some source) :
    sync_deleted_folder (some id) st = e_source_registry_server_remove_source source st := by
  simp [sync_deleted_folder, h]

theorem sync_deleted_folder_cases (folder_id : Option String) (st : State) :
    sync_deleted_folder folder_id st = st ∨
      ∃ id source, folder_id = some id ∧ ews_backend_folders_lookup st id = some source ∧
        sync_deleted_folder folder_id st = e_source_registry_server_remove_source source st := by
  cases folder_id with
  | none => exact Or.inl rfl
  | some id =>
    cases h : ews_backend_folders_lookup st id with
    | none => exact Or.inl (sync_deleted_folder_absent _ st (fun k hk => by cases hk; exact h))
    | some source => exact Or.inr ⟨id, source, rfl, h, sync_deleted_folder_present id source st h⟩

theorem tracked_sync_deleted_folder (folder_id : Option String) (st : State) (h : Tracked st) :
    Tracked (sync_deleted_folder folder_id st) := by
  rcases sync_deleted_folder_cases folder_id st with heq | ⟨id, source, _, _, heq⟩
  · rw [heq]; exact h
  · rw [heq]; exact tracked_remove_source source st h

theorem mirrored_sync_deleted_folder (folder_id : Option String) (st : State)
    (h : Mirrored st) : Mirrored (sync_deleted_folder folder_id st) := by
  rcases sync_deleted_folder_cases folder_id st with heq | ⟨id, source, _, _, heq⟩
  · rw [heq]; exact h
  · rw [heq]; exact mirrored_remove_source source st h

theorem lookup_none_remove_source (source : ESource) (st : State) (key : String)
    (h : g_hash_table_lookup key st.priv.folders = none) :
    g_hash_table_lookup key (e_source_registry_server_remove_source source st).priv.folders =
      none := by
  rw [remove_source_eq]
  show g_hash_table_lookup key
    (if source ∈ st.registry ∧ is_child st source = true then
      match tracked_folder_id source with
      | some id => g_hash_table_remove id st.priv.folders
      | none => st.priv.folders
    else st.priv.folders) = none
  split
  · split
    · exact lookup_remove_none _ key _ h
    · exact h
  · exact h

theorem lookup_none_sync_deleted_folder (folder_id : Option String) (st : State) (key : String)
    (h : g_hash_table_lookup key st.priv.folders = none) :
    g_hash_table_lookup key (sync_deleted_folder folder_id st).priv.folders = none := by
  rcases sync_deleted_folder_cases folder_id st with heq | ⟨id, source, _, _, heq⟩
  · rw [heq]; exact h
  · rw [heq]; exact lookup_none_remove_source source st key h

theorem lookup_sync_deleted_folder_self (id : String) (st : State) (h : Tracked st) :
    g_hash_table_lookup id (sync_deleted_folder (some id) st).priv.folders = none := by
  cases hl : ews_backend_folders_lookup st id with
  | none =>
    rw [sync_deleted_folder_absent _ st (fun k hk => by cases hk; exact hl)]
    exact hl
  | some source =>
    rw [sync_deleted_folder_present id source st hl, remove_source_eq]
    obtain ⟨h1, h2, h3⟩ := h (id, source) (mem_of_lookup id source _ hl)
    show g_hash_table_lookup id
      (if source ∈ st.registry ∧ is_child st source = true then
        match tracked_folder_id source with
        | some id => g_hash_table_remove id st.priv.folders
        | none => st.priv.folders
      else st.priv.folders) = none
    simp only at h1 h2 h3
    rw [if_pos ⟨h1, h2⟩, h3]
    exact lookup_remove_self id _

theorem tracked_sync_deleted_folders (list : List (Option String)) (st : State)
    (h : Tracked st) : Tracked (ews_backend_sync_deleted_folders list st) := by
  induction list generalizing st with
  | nil => exact h
  | cons id rest ih => exact ih _ (tracked_sync_deleted_folder id st h)

theorem mirrored_sync_deleted_folders (list : List (Option String)) (st : State)
    (h : Mirrored st) : Mirrored (ews_backend_sync_deleted_folders list st) := by
  induction list generalizing st with
  | nil => exact h
  | cons id rest ih => exact ih _ (mirrored_sync_deleted_folder id st h)

theorem lookup_none_sync_deleted_folders (list : List (Option String)) (st : State)
    (key : String) (h : g_hash_table_lookup key st.priv.folders = none) :
    g_hash_table_lookup key (ews_backend_sync_deleted_folders list st).priv.folders = none := by
  induction list generalizing st with
  | nil => exact h
  | cons id rest ih => exact ih _ (lookup_none_sync_deleted_folder id st key h)

theorem lookup_sync_deleted_folders (list : List (Option String)) (st : State) (key : String)
    (h : Tracked st) (hmem : some key ∈ list) :
    g_hash_table_lookup key (ews_backend_sync_deleted_folders list st).priv.folders = none := by
  induction list generalizing st with
  | nil => cases hmem
  | cons id rest ih =>
    rcases List.mem_cons.mp hmem with heq | hrest
    · rw [← heq]
      exact lookup_none_sync_deleted_folders rest _ key (lookup_sync_deleted_folder_self key st h)
    · exact ih _ (tracked_sync_deleted_folder id st h) hrest

theorem sync_deleted_folders_absent (list : List (Option String)) (st : State)
    (h : ∀ id, some id ∈ list → ews_backend_folders_lookup st id = none) :
    ews_backend_sync_deleted_folders list st = st := by
  induction list with
  | nil => rfl
  | cons id rest ih =>
    have h1 : sync_deleted_folder id st = st :=
      sync_deleted_folder_absent id st (fun k hk => h k (by rw [hk]; exact List.mem_cons_self _ _))
    simp only [ews_backend_sync_deleted_folders, h1]
    exact ih (fun k hk => h k (List.mem_cons_of_mem _ hk))

/-- Claim C3.  The deleted pass yields a state and no error.  An element
whose id is NULL or absent from the folder index leaves the whole state,
registry and folder index included, as it was; a list of such elements leaves
it as it was.  An element whose id the folder index maps to a source makes
one `remove_source` call, for exactly that source.  When no entry of the
folder index is stale, no id of the deleted list is in the folder index
after the pass. -/
theorem sync_deleted_folders_correct (list : List (Option String)) (st : State)
    (h : Tracked st) :
    (∀ (s : State) (folder_id : Option String),
      (∀ id, folder_id = some id → ews_backend_folders_lookup s id = none) →
        sync_deleted_folder folder_id s = s) ∧
    ((∀ id, some id ∈ list → ews_backend_folders_lookup st id = none) →
      ews_backend_sync_deleted_folders list st = st) ∧
    (∀ (s : State) (id : String) (source : ESource),
      ews_backend_folders_lookup s id = some source →
        sync_deleted_folder (some id) s = e_source_registry_server_remove_source source s ∧
        (sync_deleted_folder (some id) s).calls = s.calls ++ [Call.remove_source source]) ∧
    (∀ (s : State) (folder_id : Option String) (rest : List (Option String)),
      ews_backend_sync_deleted_folders (folder_id :: rest) s =
        ews_backend_sync_deleted_folders rest (sync_deleted_folder folder_id s)) ∧
    (∀ id, some id ∈ list →
      ews_backend_folders_lookup (ews_backend_sync_deleted_folders list st) id = none) := by
  refine ⟨fun s folder_id hs => sync_deleted_folder_absent folder_id s hs,
    sync_deleted_folders_absent list st, fun s id source hs => ?_, fun _ _ _ => rfl,
    fun id hid => lookup_sync_deleted_folders list st id h hid⟩
  rw [sync_deleted_folder_present id source s hs, remove_source_eq]
  exact ⟨rfl, rfl⟩

/-! ## The reconcile job -/

theorem sync_created_folder_other (folder : EEwsFolder) (st : State) (key : String)
    (hother : folder.fid.id = some key → mirrored_type folder.folder_type = false) :
    g_hash_table_lookup key (sync_created_folder folder st).priv.folders =
        g_hash_table_lookup key st.priv.folders ∧
      local_sources key (sync_created_folder folder st) = local_sources key st := by
  rcases settled_or_new folder st with hs | ⟨id, hid, hnew, hkind⟩
  · rw [sync_created_folder_skip folder st hs]
    exact ⟨rfl, rfl⟩
  · have hne : key ≠ id := by
      intro heq
      rw [heq] at hother
      rw [hother hid] at hkind
      exact Bool.noConfusion hkind
    rw [sync_created_folder_new folder id st hid hnew hkind]
    refine ⟨lookup_insert_other id key _ _ hne, ?_⟩
    simp [local_sources, List.filter_append, mirrored_source, is_child, tracked_folder_id,
      Ne.symm hne]

theorem sync_created_folders_other (list : List EEwsFolder) (st : State) (key : String)
    (hother : ∀ folder ∈ list, folder.fid.id = some key →
      mirrored_type folder.folder_type = false) :
    g_hash_table_lookup key (ews_backend_sync_created_folders list st).priv.folders =
        g_hash_table_lookup key st.priv.folders ∧
      local_sources key (ews_backend_sync_created_folders list st) = local_sources key st := by
  induction list generalizing st with
  | nil => exact ⟨rfl, rfl⟩
  | cons folder rest ih =>
    have h1 := sync_created_folder_other folder st key (hother folder (List.mem_cons_self _ _))
    have h2 := ih (sync_created_folder folder st)
      (fun f hf => hother f (List.mem_cons_of_mem _ hf))
    simp only [ews_backend_sync_created_folders]
    exact ⟨h2.1.trans h1.1, h2.2.trans h1.2⟩

theorem sync_created_folder_contained (folder : EEwsFolder) (st : State) (key : String)
    (hc : ews_backend_folders_contains st key = true) :
    g_hash_table_lookup key (sync_created_folder folder st).priv.folders =
        g_hash_table_lookup key st.priv.folders ∧
      local_sources key (sync_created_folder folder st) = local_sources key st := by
  refine ⟨?_, (local_sources_sync_created_folder folder st key).1 hc⟩
  rcases settled_or_new folder st with hs | ⟨id, hid, hnew, hkind⟩
  · rw [sync_created_folder_skip folder st hs]
  · have hne : key ≠ id := by
      intro heq
      rw [heq, hnew] at hc
      exact Bool.noConfusion hc
    rw [sync_created_folder_new folder id st hid hnew hkind]
    exact lookup_insert_other id key _ _ hne

theorem sync_created_folders_contained (list : List EEwsFolder) (st : State) (key : String)
    (hc : ews_backend_folders_contains st key = true) :
    g_hash_table_lookup key (ews_backend_sync_created_folders list st).priv.folders =
        g_hash_table_lookup key st.priv.folders ∧
      local_sources key (ews_backend_sync_created_folders list st) = local_sources key st := by
  induction list generalizing st with
  | nil => exact ⟨rfl, rfl⟩
  | cons folder rest ih =>
    have h1 := sync_created_folder_contained folder st key hc
    have h2 := ih (sync_created_folder folder st) (contains_sync_created_folder folder st key hc)
    simp only [ews_backend_sync_created_folders]
    exact ⟨h2.1.trans h1.1, h2.2.trans h1.2⟩

theorem sync_created_folders_append (first second : List EEwsFolder) (st : State) :
    ews_backend_sync_created_folders (first ++ second) st =
      ews_backend_sync_created_folders second (ews_backend_sync_created_folders first st) := by
  induction first generalizing st with
  | nil => rfl
  | cons folder rest ih => exact ih (sync_created_folder folder st)

theorem local_sources_nil_of_mirrored (st : State) (key : String) (h : Mirrored st)
    (habsent : g_hash_table_lookup key st.priv.folders = none) : local_sources key st = [] := by
  unfold local_sources
  rw [List.filter_eq_nil_iff]
  intro s hs hcond
  simp only [Bool.and_eq_true, decide_eq_true_eq] at hcond
  have h1 := h s hs hcond.1 key (by simp [hcond.2])
  rw [habsent] at h1
  exact Option.noConfusion h1

theorem sync_created_folder_fresh (folder : EEwsFolder) (id : String) (st : State)
    (hid : folder.fid.id = some id) (hkind : mirrored_type folder.folder_type = true)
    (habsent : g_hash_table_lookup id st.priv.folders = none)
    (hnone : local_sources id st = []) :
    g_hash_table_lookup id (sync_created_folder folder st).priv.folders =
        some (mirrored_source folder id st) ∧
      local_sources id (sync_created_folder folder st) = [mirrored_source folder id st] := by
  have hnew : ews_backend_folders_contains st id = false := by
    simp [ews_backend_folders_contains, habsent]
  rw [sync_created_folder_new folder id st hid hnew hkind]
  refine ⟨lookup_insert_self id _ _, ?_⟩
  have h1 : local_sources id
      { st with
        priv := { st.priv with
          folders := g_hash_table_insert id (mirrored_source folder id st) st.priv.folders }
        registry := st.registry ++ [mirrored_source folder id st]
        next_uid := st.next_uid + 1
        calls := st.calls ++ [Call.add_source (mirrored_source folder id st)] } =
      local_sources id st ++ [mirrored_source folder id st] := by
    simp [local_sources, List.filter_append, mirrored_source, is_child, tracked_folder_id]
  rw [h1, hnone]
  rfl

/-- Claim C1, as amended.  In a state where the folder index agrees with the
registry (no stale entry, no missing entry), a reconcile job whose deleted
list holds the id X and whose created list holds an entry for X of type
calendar, tasks or contacts (the first such entry, should the list hold
several) ends with exactly one local source for X; the folder index maps X to
it, and it has the display name and the typed extension of that created
entry. -/
theorem reconcile_deleted_and_created (closure : SyncFoldersClosure) (st : State)
    (id : String) (folder : EEwsFolder) (before after : List EEwsFolder)
    (htracked : Tracked st) (hmirrored : Mirrored st)
    (hdeleted : some id ∈ closure.folders_deleted)
    (hcreated : closure.folders_created = before ++ folder :: after)
    (hid : folder.fid.id = some id)
    (hkind : folder.folder_type = EEwsFolderType.calendar ∨
      folder.folder_type = EEwsFolderType.tasks ∨
      folder.folder_type = EEwsFolderType.contacts)
    (hfirst : ∀ f ∈ before, f.fid.id = some id → mirrored_type f.folder_type = false) :
    ∃ source : ESource,
      local_sources id (ews_backend_sync_folders_idle_cb closure st) = [source] ∧
      ews_backend_folders_lookup (ews_backend_sync_folders_idle_cb closure st) id =
        some source ∧
      source.display_name = folder.name ∧
      (folder.folder_type = EEwsFolderType.calendar →
        source.calendar = some { backend_name := some "ews" } ∧ source.task_list = none ∧ source.address_book = none) ∧
      (folder.folder_type = EEwsFolderType.tasks →
        source.task_list = some { backend_name := some "ews" } ∧ source.calendar = none ∧ source.address_book = none) ∧
      (folder.folder_type = EEwsFolderType.contacts →
        source.address_book = some { backend_name := some "ews" } ∧ source.calendar = none ∧
          source.task_list = none) := by
  have hm : mirrored_type folder.folder_type = true := by
    rcases hkind with h | h | h <;> simp [h, mirrored_type]
  -- after the deleted pass the id is in neither the index nor the registry
  have h1 := lookup_sync_deleted_folders closure.folders_deleted st id htracked hdeleted
  have h2 := local_sources_nil_of_mirrored _ id
    (mirrored_sync_deleted_folders closure.folders_deleted st hmirrored) h1
  -- the entries before the folder leave it so
  have h3 := sync_created_folders_other before
    (ews_backend_sync_deleted_folders closure.folders_deleted st) id hfirst
  rw [h1] at h3
  rw [h2] at h3
  -- the folder itself is registered
  have h4 := sync_created_folder_fresh folder id _ hid hm h3.1 h3.2
  -- the entries after it pass over the id
  have hc : ews_backend_folders_contains (sync_created_folder folder
      (ews_backend_sync_created_folders before
        (ews_backend_sync_deleted_folders closure.folders_deleted st))) id = true := by
    simp [ews_backend_folders_contains, h4.1]
  have h5 := sync_created_folders_contained after _ id hc
  refine ⟨mirrored_source folder id (ews_backend_sync_created_folders before
    (ews_backend_sync_deleted_folders closure.folders_deleted st)), ?_, ?_, rfl, ?_, ?_, ?_⟩
  · simp only [ews_backend_sync_folders_idle_cb, hcreated, sync_created_folders_append,
      ews_backend_sync_created_folders]
    rw [h5.2, h4.2]
  · simp only [ews_backend_sync_folders_idle_cb, hcreated, sync_created_folders_append,
      ews_backend_sync_created_folders, ews_backend_folders_lookup]
    rw [h5.1, h4.1]
  · intro h; simp [mirrored_source, h]
  · intro h; simp [mirrored_source, h]
  · intro h; simp [mirrored_source, h]

/-! ## The folder index follows the registry -/

theorem tracked_of_mirror (st next : State) (hm : mirror next = mirror st) (h : Tracked st) :
    Tracked next := by
  simp only [mirror, Prod.mk.injEq] at hm
  obtain ⟨h1, h2, h3⟩ := hm
  unfold Tracked is_child at *
  rw [h1, h2, h3]
  exact h

theorem mirrored_of_mirror (st next : State) (hm : mirror next = mirror st) (h : Mirrored st) :
    Mirrored next := by
  simp only [mirror, Prod.mk.injEq] at hm
  obtain ⟨h1, h2, h3⟩ := hm
  unfold Mirrored is_child at *
  rw [h1, h2, h3]
  exact h

theorem distinct_of_mirror (st next : State) (hm : mirror next = mirror st)
    (h : DistinctIds st) : DistinctIds next := by
  simp only [mirror, Prod.mk.injEq] at hm
  obtain ⟨_, h2, h3⟩ := hm
  unfold DistinctIds is_child at *
  rw [h2, h3]
  exact h

theorem mirrored_add_source_distinct (source : ESource) (st : State) (h : Mirrored st)
    (hd : DistinctIds (e_source_registry_server_add_source source st)) :
    Mirrored (e_source_registry_server_add_source source st) := by
  refine mirrored_add_source source st h (fun hc id hid t ht hct htid => ?_)
  rw [add_source_eq] at hd
  have hrf : registered_form st source ∈ st.registry ++ [registered_form st source] := by simp
  have hcrf : is_child st (registered_form st source) = true := by
    simp only [is_child, parent_registered_form] at hc ⊢
    exact hc
  have hidrf : tracked_folder_id (registered_form st source) = some id := by
    rw [tracked_folder_id_registered_form]
    simpa using hid
  exact hd t (List.mem_append_left _ ht) _ hrf hct hcrf id (by simp [htid]) hidrf

theorem follows_of_mirror (st next : State) (hm : mirror next = mirror st) : Follows st next :=
  ⟨st, id, id, Or.inl hm⟩

theorem follows_of_preserved (st next : State) (h1 : Tracked st → Tracked next)
    (h2 : Mirrored st → Mirrored next) : Follows st next :=
  ⟨next, h1, h2, Or.inl rfl⟩

theorem tracked_of_follows (st next : State) (hf : Follows st next) (h : Tracked st) :
    Tracked next := by
  obtain ⟨mid, h1, _, hm | ⟨source, hm⟩⟩ := hf
  · exact tracked_of_mirror mid next hm (h1 h)
  · exact tracked_of_mirror _ next hm (tracked_add_source source mid (h1 h))

theorem mirrored_of_follows (st next : State) (hf : Follows st next) (h : Mirrored st)
    (hd : DistinctIds next) : Mirrored next := by
  obtain ⟨mid, _, h2, hm | ⟨source, hm⟩⟩ := hf
  · exact mirrored_of_mirror mid next hm (h2 h)
  · exact mirrored_of_mirror _ next hm
      (mirrored_add_source_distinct source mid (h2 h) (distinct_of_mirror next _ hm.symm hd))

theorem sync_created_folder_new_add (folder : EEwsFolder) (id : String) (st : State)
    (hid : folder.fid.id = some id)
    (hnew : ews_backend_folders_contains st id = false)
    (hkind : mirrored_type folder.folder_type = true) :
    sync_created_folder folder st =
      e_source_registry_server_add_source (mirrored_source folder id st)
        { st with next_uid := st.next_uid + 1 } := by
  rw [sync_created_folder_new folder id st hid hnew hkind, add_source_eq]
  simp [registered_form, is_child, child_added_bindings, is_mail, mirrored_source,
    tracked_folder_id]

theorem tracked_sync_created_folder (folder : EEwsFolder) (st : State) (h : Tracked st) :
    Tracked (sync_created_folder folder st) := by
  rcases settled_or_new folder st with hs | ⟨id, hid, hnew, hkind⟩
  · rw [sync_created_folder_skip folder st hs]; exact h
  · rw [sync_created_folder_new_add folder id st hid hnew hkind]
    exact tracked_add_source _ _ (tracked_of_mirror st _ rfl h)

theorem mirrored_sync_created_folder (folder : EEwsFolder) (st : State) (h : Mirrored st) :
    Mirrored (sync_created_folder folder st) := by
  rcases settled_or_new folder st with hs | ⟨id, hid, hnew, hkind⟩
  · rw [sync_created_folder_skip folder st hs]; exact h
  · rw [sync_created_folder_new_add folder id st hid hnew hkind]
    refine mirrored_add_source_absent _ _ (mirrored_of_mirror st _ rfl h) (fun k hk => ?_)
    have hk2 : id = k := by simpa [mirrored_source, tracked_folder_id] using hk
    subst hk2
    simpa [ews_backend_folders_contains] using hnew

theorem tracked_sync_created_folders (list : List EEwsFolder) (st : State) (h : Tracked st) :
    Tracked (ews_backend_sync_created_folders list st) := by
  induction list generalizing st with
  | nil => exact h
  | cons folder rest ih => exact ih _ (tracked_sync_created_folder folder st h)

theorem mirrored_sync_created_folders (list : List EEwsFolder) (st : State) (h : Mirrored st) :
    Mirrored (ews_backend_sync_created_folders list st) := by
  induction list generalizing st with
  | nil => exact h
  | cons folder rest ih => exact ih _ (mirrored_sync_created_folder folder st h)

theorem follows_idle_cb (closure : SyncFoldersClosure) (st : State) :
    Follows st (ews_backend_sync_folders_idle_cb closure st) :=
  follows_of_preserved _ _
    (fun h => tracked_sync_created_folders _ _ (tracked_sync_deleted_folders _ _ h))
    (fun h => mirrored_sync_created_folders _ _ (mirrored_sync_deleted_folders _ _ h))

theorem follows_main_loop (st : State) : Follows st (main_loop_iteration st) := by
  unfold main_loop_iteration
  split
  · exact follows_of_mirror st st rfl
  · rename_i closure rest _
    obtain ⟨mid, h1, h2, h3⟩ := follows_idle_cb closure { st with idle := rest }
    exact ⟨mid, fun h => h1 (tracked_of_mirror st _ rfl h),
      fun h => h2 (mirrored_of_mirror st _ rfl h), h3⟩

theorem ref_connection_mirror (auth_error : Option GError) (st : State) :
    mirror (e_ews_backend_ref_connection_sync auth_error st).2 = mirror st := by
  unfold e_ews_backend_ref_connection_sync ref_connection_check ref_connection_new
    ref_connection_publish
  cases st.priv.connection <;> cases auth_error <;> rfl

theorem sync_folders_mirror (auth_error : Option GError) (delta : Except GError HierarchyDelta)
    (st : State) : mirror (e_ews_backend_sync_folders_sync auth_error delta st).2 = mirror st := by
  have hm := ref_connection_mirror auth_error st
  unfold e_ews_backend_sync_folders_sync
  generalize e_ews_backend_ref_connection_sync auth_error st = res at hm ⊢
  obtain ⟨r, st1⟩ := res
  cases r with
  | error e => exact hm
  | ok connection => cases delta <;> exact hm

theorem follows_create_resource (auth_error : Option GError) (reply : Except GError EwsFolderId)
    (source : ESource) (st : State) :
    Follows st (ews_backend_create_resource_sync auth_error reply source st).2.2 := by
  have hm := ref_connection_mirror auth_error st
  unfold ews_backend_create_resource_sync
  generalize e_ews_backend_ref_connection_sync auth_error st = res at hm ⊢
  obtain ⟨r, st1⟩ := res
  cases r with
  | error e => exact follows_of_mirror _ _ hm
  | ok connection =>
    rcases create_resource_target source with ⟨folder_type, parent⟩
    cases parent with
    | none => exact follows_of_mirror _ _ hm
    | some parent_folder_id =>
      cases reply with
      | error e => exact follows_of_mirror _ _ hm
      | ok out_folder_id =>
        dsimp only
        refine ⟨_, ?_, ?_, Or.inr ⟨_, rfl⟩⟩
        · exact fun h => tracked_of_mirror st _ hm h
        · exact fun h => mirrored_of_mirror st _ hm h

theorem follows_delete_resource (auth_error : Option GError) (reply : Option GError)
    (source : ESource) (st : State) :
    Follows st (ews_backend_delete_resource_sync auth_error reply source st).2 := by
  have hm := ref_connection_mirror auth_error st
  unfold ews_backend_delete_resource_sync
  generalize e_ews_backend_ref_connection_sync auth_error st = res at hm ⊢
  obtain ⟨r, st1⟩ := res
  cases r with
  | error e => exact follows_of_mirror _ _ hm
  | ok connection =>
    cases source.ews_folder with
    | none => exact follows_of_mirror _ _ hm
    | some extension =>
      cases reply with
      | some e => exact follows_of_mirror _ _ hm
      | none =>
        exact follows_of_preserved _ _
          (fun h => tracked_remove_source _ _ (tracked_of_mirror st _ hm h))
          (fun h => mirrored_remove_source _ _ (mirrored_of_mirror st _ hm h))

theorem follows_add_gal_source (st base : State) (h1 : Tracked base → Tracked st)
    (h2 : Mirrored base → Mirrored st) : Follows base (ews_backend_add_gal_source st) := by
  cases hres : gal_source_resolved st with
  | some resolved =>
    simp only [ews_backend_add_gal_source, hres]
    exact ⟨st, h1, h2, Or.inl rfl⟩
  | none =>
    simp only [ews_backend_add_gal_source, hres]
    refine ⟨_, ?_, ?_, Or.inr ⟨_, rfl⟩⟩
    · exact fun h => tracked_of_mirror st _ rfl (h1 h)
    · exact fun h => mirrored_of_mirror st _ rfl (h2 h)

theorem follows_source_changed_cb (st base : State) (hm : mirror st = mirror base) :
    Follows base (ews_backend_source_changed_cb st) := by
  unfold ews_backend_source_changed_cb
  split
  · exact follows_of_mirror _ _ hm
  · apply follows_add_gal_source
    · intro h
      have ht := tracked_of_mirror base st hm h
      split
      · split
        · exact tracked_of_mirror _ _ rfl (tracked_remove_source _ _ ht)
        · exact tracked_of_mirror _ _ rfl ht
      · exact ht
    · intro h
      have ht := mirrored_of_mirror base st hm h
      split
      · split
        · exact mirrored_of_mirror _ _ rfl (mirrored_remove_source _ _ ht)
        · exact mirrored_of_mirror _ _ rfl ht
      · exact ht

theorem follows_of_step (st next : State) (h : Step st next) : Follows st next := by
  cases h with
  | source_added source => exact ⟨st, id, id, Or.inr ⟨source, rfl⟩⟩
  | source_removed source =>
    exact follows_of_preserved _ _ (tracked_remove_source source st)
      (mirrored_remove_source source st)
  | reconcile closure => exact follows_idle_cb closure st
  | main_loop => exact follows_main_loop st
  | ref_connection auth_error => exact follows_of_mirror _ _ (ref_connection_mirror auth_error st)
  | sync_folders auth_error delta =>
    exact follows_of_mirror _ _ (sync_folders_mirror auth_error delta st)
  | create_resource auth_error reply source =>
    exact follows_create_resource auth_error reply source st
  | delete_resource auth_error reply source =>
    exact follows_delete_resource auth_error reply source st
  | populate => exact follows_add_gal_source st st id id
  | settings_changed oal_selected => exact follows_source_changed_cb _ st rfl

theorem tracked_initial (st : State) (h : Initial st) : Tracked st := by
  intro e he
  rw [h.1] at he
  cases he

theorem mirrored_initial (st : State) (h : Initial st) : Mirrored st := by
  intro s hs hc
  rw [h.2 s hs] at hc
  exact Bool.noConfusion hc

theorem tracked_reachable (ok : State → Prop) (st : State) (h : Reachable ok st) :
    Tracked st := by
  induction h with
  | init st hi _ => exact tracked_initial st hi
  | step st next _ hs _ ih => exact tracked_of_follows st next (follows_of_step st next hs) ih

theorem mirrored_reachable (ok : State → Prop) (hok : ∀ s, ok s → DistinctIds s) (st : State)
    (h : Reachable ok st) : Mirrored st := by
  induction h with
  | init st hi _ => exact mirrored_initial st hi
  | step st next _ hs hn ih =>
    exact mirrored_of_follows st next (follows_of_step st next hs) ih (hok next hn)

/-! ## The connection and the synchronisation pass -/

theorem ref_connection_cases (auth_error : Option GError) (st : State) :
    (∃ connection, st.priv.connection = some connection ∧
      e_ews_backend_ref_connection_sync auth_error st = (Except.ok connection, st)) ∨
    (st.priv.connection = none ∧ auth_error = none ∧
      e_ews_backend_ref_connection_sync auth_error st =
        (Except.ok { serial := st.next_connection, hosturl := st.settings.hosturl },
         { st with
           priv := { st.priv with
             connection := some { serial := st.next_connection, hosturl := st.settings.hosturl } }
           next_connection := st.next_connection + 1
           calls := st.calls ++ [Call.authenticate
             { serial := st.next_connection, hosturl := st.settings.hosturl }] })) ∨
    (∃ e, st.priv.connection = none ∧ auth_error = some e ∧
      e_ews_backend_ref_connection_sync auth_error st =
        (Except.error e,
         { st with
           next_connection := st.next_connection + 1
           calls := st.calls ++ [Call.authenticate
             { serial := st.next_connection, hosturl := st.settings.hosturl }] })) := by
  cases hc : st.priv.connection with
  | some connection =>
    exact Or.inl ⟨connection, rfl, by
      simp [e_ews_backend_ref_connection_sync, ref_connection_check, hc]⟩
  | none =>
    cases auth_error with
    | none =>
      exact Or.inr (Or.inl ⟨rfl, rfl, by
        simp [e_ews_backend_ref_connection_sync, ref_connection_check, ref_connection_new,
          ref_connection_publish, hc]⟩)
    | some e =>
      exact Or.inr (Or.inr ⟨e, rfl, rfl, by
        simp [e_ews_backend_ref_connection_sync, ref_connection_check, ref_connection_new,
          ref_connection_publish, hc]⟩)

theorem ref_connection_frame (auth_error : Option GError) (st : State) :
    (e_ews_backend_ref_connection_sync auth_error st).2.priv.sync_state = st.priv.sync_state ∧
    (e_ews_backend_ref_connection_sync auth_error st).2.priv.folders = st.priv.folders ∧
    (e_ews_backend_ref_connection_sync auth_error st).2.priv.oal_selected =
      st.priv.oal_selected ∧
    (e_ews_backend_ref_connection_sync auth_error st).2.registry = st.registry ∧
    (e_ews_backend_ref_connection_sync auth_error st).2.idle = st.idle ∧
    (e_ews_backend_ref_connection_sync auth_error st).2.settings = st.settings := by
  rcases ref_connection_cases auth_error st with ⟨c, _, h⟩ | ⟨_, _, h⟩ | ⟨e, _, _, h⟩ <;>
    rw [h] <;> exact ⟨rfl, rfl, rfl, rfl, rfl, rfl⟩

/-- Claim C4.  When the connection is obtained and the hierarchy request
succeeds, `e_ews_backend_sync_folders_sync` returns success, the request was
made with the sync state the backend held, the backend now holds the sync
state of the reply, exactly one reconcile job carrying the created, deleted
and updated lists of the reply has been queued behind the jobs already
there, and folder index and registry are as before. -/
theorem sync_folders_success (auth_error : Option GError) (d : HierarchyDelta) (st : State)
    (connection : EEwsConnection)
    (hconn : (e_ews_backend_ref_connection_sync auth_error st).1 = Except.ok connection) :
    (e_ews_backend_sync_folders_sync auth_error (Except.ok d) st).1 = none ∧
    (e_ews_backend_sync_folders_sync auth_error (Except.ok d) st).2.priv.sync_state =
      d.sync_state ∧
    (e_ews_backend_sync_folders_sync auth_error (Except.ok d) st).2.idle =
      st.idle ++ [{ folders_created := d.folders_created
                    folders_deleted := d.folders_deleted
                    folders_updated := d.folders_updated }] ∧
    (e_ews_backend_sync_folders_sync auth_error (Except.ok d) st).2.calls =
      (e_ews_backend_ref_connection_sync auth_error st).2.calls ++
        [Call.sync_folder_hierarchy connection st.priv.sync_state] ∧
    (e_ews_backend_sync_folders_sync auth_error (Except.ok d) st).2.priv.folders =
      st.priv.folders ∧
    (e_ews_backend_sync_folders_sync auth_error (Except.ok d) st).2.registry = st.registry := by
  obtain ⟨h1, h2, _, h4, h5, _⟩ := ref_connection_frame auth_error st
  unfold e_ews_backend_sync_folders_sync
  generalize e_ews_backend_ref_connection_sync auth_error st = res at hconn h1 h2 h4 h5 ⊢
  obtain ⟨r, st1⟩ := res
  simp only at hconn h1 h2 h4 h5
  subst hconn
  dsimp only
  exact ⟨rfl, rfl, by rw [h5], by rw [h1], h2, h4⟩

/-- Claim C5.  A call of `e_ews_backend_sync_folders_sync` fails when the
connection is not obtained and when the hierarchy request returns an error
(a cancellation is such an error).  Whenever the call fails, sync state and
folder index are as before the call and no reconcile job has been queued. -/
theorem sync_folders_failure (auth_error : Option GError)
    (delta : Except GError HierarchyDelta) (st : State) :
    (∀ e, (e_ews_backend_ref_connection_sync auth_error st).1 = Except.error e →
      (e_ews_backend_sync_folders_sync auth_error delta st).1 = some e) ∧
    (∀ connection e,
      (e_ews_backend_ref_connection_sync auth_error st).1 = Except.ok connection →
      delta = Except.error e →
      (e_ews_backend_sync_folders_sync auth_error delta st).1 = some e) ∧
    (∀ e, (e_ews_backend_sync_folders_sync auth_error delta st).1 = some e →
      (e_ews_backend_sync_folders_sync auth_error delta st).2.priv.sync_state =
        st.priv.sync_state ∧
      (e_ews_backend_sync_folders_sync auth_error delta st).2.priv.folders =
        st.priv.folders ∧
      (e_ews_backend_sync_folders_sync auth_error delta st).2.idle = st.idle ∧
      (e_ews_backend_sync_folders_sync auth_error delta st).2.registry = st.registry) := by
  obtain ⟨h1, h2, _, h4, h5, _⟩ := ref_connection_frame auth_error st
  unfold e_ews_backend_sync_folders_sync
  generalize e_ews_backend_ref_connection_sync auth_error st = res at h1 h2 h4 h5 ⊢
  obtain ⟨r, st1⟩ := res
  simp only at h1 h2 h4 h5
  cases r with
  | error e1 =>
    refine ⟨fun e he => ?_, fun c e he => ?_, fun e _ => ⟨h1, h2, h5, h4⟩⟩
    · simp only [Except.error.injEq] at he
      simp [he]
    · cases he
  | ok connection =>
    cases delta with
    | error e2 =>
      refine ⟨fun e he => ?_, fun c e _ hd => ?_, fun e _ => ⟨h1, h2, h5, h4⟩⟩
      · cases he
      · simp only [Except.error.injEq] at hd
        simp [hd]
    | ok d =>
      refine ⟨fun e he => ?_, fun c e _ hd => ?_, fun e he => ?_⟩
      · cases he
      · cases hd
      · cases he

/-- Claim C6, as amended.  When a caller that observed no connection has
authenticated its own connection, the publish step stores that connection in
the backend, whether or not another connection has been published meanwhile,
and the caller gets its own connection; after a failed authentication the
publish step changes nothing.  A caller that finds a published connection at
its check gets that one and leaves the state alone. -/
theorem ref_connection_publish_replaces (connection : EEwsConnection) (st : State) :
    (ref_connection_publish connection none st).1 = Except.ok connection ∧
    (ref_connection_publish connection none st).2.priv.connection = some connection ∧
    (∀ e, ref_connection_publish connection (some e) st = (Except.error e, st)) ∧
    (∀ auth_error published, ref_connection_check st = some published →
      e_ews_backend_ref_connection_sync auth_error st = (Except.ok published, st)) := by
  refine ⟨rfl, rfl, fun e => rfl, fun auth_error published h => ?_⟩
  simp [e_ews_backend_ref_connection_sync, h]

/-- Claim C7.  With a connection in the backend,
`e_ews_backend_ref_connection_sync` returns exactly that connection and the
state after the call is the state before it: the private data of the backend
is unchanged and no call, so no authentication attempt, has been made. -/
theorem ref_connection_existing (auth_error : Option GError) (st : State)
    (connection : EEwsConnection) (h : st.priv.connection = some connection) :
    e_ews_backend_ref_connection_sync auth_error st = (Except.ok connection, st) ∧
    (e_ews_backend_ref_connection_sync auth_error st).2.priv = st.priv ∧
    (e_ews_backend_ref_connection_sync auth_error st).2.calls = st.calls := by
  have h1 : e_ews_backend_ref_connection_sync auth_error st = (Except.ok connection, st) := by
    simp [e_ews_backend_ref_connection_sync, ref_connection_check, h]
  rw [h1]
  exact ⟨rfl, rfl, rfl⟩

/-- Claim C8.  With no connection in the backend and a failing
authentication, `e_ews_backend_ref_connection_sync` returns the
authentication error and no connection, after one authentication attempt; the
private data of the backend is unchanged, its connection still NULL.  The
next call makes a new connection object and one more authentication attempt,
and if that one succeeds the new connection is returned and stored. -/
theorem ref_connection_failure_not_cached (e : GError) (st : State)
    (h : st.priv.connection = none) :
    (e_ews_backend_ref_connection_sync (some e) st).1 = Except.error e ∧
    (e_ews_backend_ref_connection_sync (some e) st).2.priv = st.priv ∧
    (e_ews_backend_ref_connection_sync (some e) st).2.priv.connection = none ∧
    (e_ews_backend_ref_connection_sync (some e) st).2.calls =
      st.calls ++ [Call.authenticate
        { serial := st.next_connection, hosturl := st.settings.hosturl }] ∧
    (∀ next_error : Option GError,
      (e_ews_backend_ref_connection_sync next_error
          (e_ews_backend_ref_connection_sync (some e) st).2).2.calls =
        (e_ews_backend_ref_connection_sync (some e) st).2.calls ++
          [Call.authenticate
            { serial := st.next_connection + 1, hosturl := st.settings.hosturl }]) ∧
    (e_ews_backend_ref_connection_sync none
        (e_ews_backend_ref_connection_sync (some e) st).2).1 =
      Except.ok { serial := st.next_connection + 1, hosturl := st.settings.hosturl } ∧
    (e_ews_backend_ref_connection_sync none
        (e_ews_backend_ref_connection_sync (some e) st).2).2.priv.connection =
      some { serial := st.next_connection + 1, hosturl := st.settings.hosturl } := by
  have h1 : e_ews_backend_ref_connection_sync (some e) st =
      (Except.error e,
       { st with
         next_connection := st.next_connection + 1
         calls := st.calls ++ [Call.authenticate
           { serial := st.next_connection, hosturl := st.settings.hosturl }] }) := by
    simp [e_ews_backend_ref_connection_sync, ref_connection_check, ref_connection_new,
      ref_connection_publish, h]
  rw [h1]
  refine ⟨rfl, rfl, h, rfl, fun next_error => ?_, ?_, ?_⟩
  · cases next_error <;>
      simp [e_ews_backend_ref_connection_sync, ref_connection_check, ref_connection_new,
        ref_connection_publish, h]
  · simp [e_ews_backend_ref_connection_sync, ref_connection_check, ref_connection_new,
      ref_connection_publish, h]
  · simp [e_ews_backend_ref_connection_sync, ref_connection_check, ref_connection_new,
      ref_connection_publish, h]

/-! ## The claims at concrete states -/

theorem example_state_initial : Initial example_state := by
  unfold Initial
  decide

theorem mirrored_state_reachable (ok : State → Prop) (h0 : ok example_state)
    (h1 : ok mirrored_state) : Reachable ok mirrored_state :=
  Reachable.step _ _ (Reachable.init _ example_state_initial h0) (Step.reconcile _ _) h1

theorem shadowed_state_reachable : Reachable (fun _ => True) shadowed_state :=
  Reachable.step _ _
    (Reachable.step _ _ (mirrored_state_reachable _ trivial trivial)
      (Step.settings_changed _ (some "X:Dir")) trivial)
    (Step.settings_changed _ (some "Y:Other")) trivial

theorem mirrored_state_tracked : Tracked mirrored_state := by
  unfold Tracked
  decide

theorem mirrored_state_mirrored : Mirrored mirrored_state := by
  unfold Mirrored
  decide

theorem example_state_distinct : DistinctIds example_state := by
  unfold DistinctIds
  decide

theorem mirrored_state_distinct : DistinctIds mirrored_state := by
  unfold DistinctIds
  decide

/-- Claim C1, counterexample.  The backend reaches `shadowed_state` by a
reconcile job and two changes of the directory selection; there the calendar
"A" with folder id "X" is registered while "X" is not in the folder index.
The reconcile job for a delta that deletes "X" and creates "X" as the task
list "New" ends with two local sources for "X", the old "A" and the new
"New". -/
theorem reconcile_deleted_and_created_counterexample :
    Reachable (fun _ => True) shadowed_state ∧
    some "X" ∈ example_closure.folders_deleted ∧
    example_closure.folders_created = [example_folder "New" EEwsFolderType.tasks] ∧
    (example_folder "New" EEwsFolderType.tasks).fid.id = some "X" ∧
    ews_backend_folders_lookup shadowed_state "X" = none ∧
    (local_sources "X" shadowed_state).map (fun s => s.display_name) = [some "A"] ∧
    (local_sources "X" (ews_backend_sync_folders_idle_cb example_closure shadowed_state)).map
      (fun s => s.display_name) = [some "A", some "New"] ∧
    ¬ ∃ source, local_sources "X"
      (ews_backend_sync_folders_idle_cb example_closure shadowed_state) = [source] := by
  refine ⟨shadowed_state_reachable, by decide, rfl, rfl, by decide, by decide, by decide, ?_⟩
  rintro ⟨source, h⟩
  have hlen : (local_sources "X"
      (ews_backend_sync_folders_idle_cb example_closure shadowed_state)).length = 2 := by
    decide
  rw [h] at hlen
  simp at hlen

/-- Claim C1, witness: the amended claim at `mirrored_state`, where the
calendar "A" mirrors "X", and the delta that deletes "X" and creates it again
as the task list "New". -/
theorem reconcile_deleted_and_created_witness :
    Tracked mirrored_state ∧ Mirrored mirrored_state ∧
    ∃ source : ESource,
      local_sources "X" (ews_backend_sync_folders_idle_cb example_closure mirrored_state) =
        [source] ∧
      ews_backend_folders_lookup
        (ews_backend_sync_folders_idle_cb example_closure mirrored_state) "X" = some source ∧
      source.display_name = some "New" ∧
      source.task_list = some { backend_name := some "ews" } :=
  ⟨mirrored_state_tracked, mirrored_state_mirrored, by
    obtain ⟨source, h1, h2, h3, _, h5, _⟩ :=
      reconcile_deleted_and_created example_closure mirrored_state "X"
        (example_folder "New" EEwsFolderType.tasks) [] []
        mirrored_state_tracked mirrored_state_mirrored (by decide) rfl rfl
        (Or.inr (Or.inl rfl)) (fun f hf => by cases hf)
    exact ⟨source, h1, h2, h3, (h5 rfl).1⟩⟩

/-- Claim C2, as amended.  Applying a created list a second time changes
nothing at all: the state after two passes of
`ews_backend_sync_created_folders` is the state after one, so registry and
folder index are the same.  One pass registers at most one source per folder
id, and none for an id that is already in the folder index.  In a state
where the folder id of every registered child is a key of the folder index
and no folder id has two local sources, no folder id has two local sources
after one pass or after two. -/
theorem sync_created_folders_idempotent (list : List EEwsFolder) (st : State) :
    ews_backend_sync_created_folders list (ews_backend_sync_created_folders list st) =
      ews_backend_sync_created_folders list st ∧
    (ews_backend_sync_created_folders list (ews_backend_sync_created_folders list st)).registry =
      (ews_backend_sync_created_folders list st).registry ∧
    (ews_backend_sync_created_folders list (ews_backend_sync_created_folders list st)).priv.folders =
      (ews_backend_sync_created_folders list st).priv.folders ∧
    (∀ folder_id : String,
      (local_sources folder_id (ews_backend_sync_created_folders list st)).length ≤
        (local_sources folder_id st).length + 1 ∧
      (ews_backend_folders_contains st folder_id = true →
        local_sources folder_id (ews_backend_sync_created_folders list st) =
          local_sources folder_id st)) ∧
    (Mirrored st → (∀ folder_id : String, (local_sources folder_id st).length ≤ 1) →
      ∀ folder_id : String,
        (local_sources folder_id (ews_backend_sync_created_folders list st)).length ≤ 1 ∧
        (local_sources folder_id (ews_backend_sync_created_folders list
          (ews_backend_sync_created_folders list st))).length ≤ 1) := by
  have h := sync_created_folders_settled list (ews_backend_sync_created_folders list st)
    (all_settled_after_sync_created_folders list st)
  have honce : Mirrored st → (∀ folder_id : String, (local_sources folder_id st).length ≤ 1) →
      ∀ folder_id : String,
        (local_sources folder_id (ews_backend_sync_created_folders list st)).length ≤ 1 := by
    intro hm hone key
    cases hc : ews_backend_folders_contains st key with
    | true =>
      rw [(local_sources_sync_created_folders list st key).1 hc]
      exact hone key
    | false =>
      have habsent : g_hash_table_lookup key st.priv.folders = none := by
        simpa [ews_backend_folders_contains] using hc
      have hnil := local_sources_nil_of_mirrored st key hm habsent
      have hle := (local_sources_sync_created_folders list st key).2
      rw [hnil] at hle
      exact hle
  refine ⟨h, by rw [h], by rw [h], fun key => ?_, fun hm hone key => ?_⟩
  · exact ⟨(local_sources_sync_created_folders list st key).2,
      (local_sources_sync_created_folders list st key).1⟩
  · rw [h]
    exact ⟨honce hm hone key, honce hm hone key⟩

/-- Claim C2, counterexample.  The backend reaches `shadowed_state`, where
the calendar "A" with folder id "X" is registered and "X" is not in the
folder index.  Applying the created list that holds the task list "New" with
id "X", once or twice, leaves two local sources for "X": "A" and "New". -/
theorem sync_created_folders_idempotent_counterexample :
    Reachable (fun _ => True) shadowed_state ∧
    (local_sources "X" shadowed_state).map (fun s => s.display_name) = [some "A"] ∧
    (local_sources "X" (ews_backend_sync_created_folders
      [example_folder "New" EEwsFolderType.tasks] shadowed_state)).map
        (fun s => s.display_name) = [some "A", some "New"] ∧
    (local_sources "X" (ews_backend_sync_created_folders
      [example_folder "New" EEwsFolderType.tasks]
      (ews_backend_sync_created_folders [example_folder "New" EEwsFolderType.tasks]
        shadowed_state))).length = 2 := by
  refine ⟨shadowed_state_reachable, by decide, by decide, by decide⟩

/-- Claim C2, witness: a created list that names the folder "X" twice, applied
at `mirrored_state`, where the calendar "A" mirrors "X" already. -/
theorem sync_created_folders_idempotent_witness :
    Mirrored mirrored_state ∧
    (∀ folder_id : String, (local_sources folder_id mirrored_state).length ≤ 1) ∧
    ews_backend_sync_created_folders
        [example_folder "New" EEwsFolderType.tasks, example_folder "B" EEwsFolderType.tasks]
        (ews_backend_sync_created_folders
          [example_folder "New" EEwsFolderType.tasks, example_folder "B" EEwsFolderType.tasks]
          mirrored_state) =
      ews_backend_sync_created_folders
        [example_folder "New" EEwsFolderType.tasks, example_folder "B" EEwsFolderType.tasks]
        mirrored_state ∧
    (local_sources "X" (ews_backend_sync_created_folders
      [example_folder "New" EEwsFolderType.tasks, example_folder "B" EEwsFolderType.tasks]
      mirrored_state)).length ≤ 1 :=
  ⟨mirrored_state_mirrored,
    fun _ => List.length_filter_le _ _,
    (sync_created_folders_idempotent _ mirrored_state).1,
    ((sync_created_folders_idempotent _ mirrored_state).2.2.2.2 mirrored_state_mirrored
      (fun _ => List.length_filter_le _ _) "X").1⟩

/-- Claim C3, witness: the deleted list "X", NULL, "Z" at `mirrored_state`,
where "X" is mirrored and "Z" is not. -/
theorem sync_deleted_folders_correct_witness :
    Tracked mirrored_state ∧
    sync_deleted_folder (some "Z") mirrored_state = mirrored_state ∧
    (∀ id, some id ∈ [some "X", none, some "Z"] →
      ews_backend_folders_lookup
        (ews_backend_sync_deleted_folders [some "X", none, some "Z"] mirrored_state) id =
          none) ∧
    (ews_backend_sync_deleted_folders [some "X", none, some "Z"] mirrored_state).registry =
      [] :=
  ⟨mirrored_state_tracked,
    (sync_deleted_folders_correct [some "X", none, some "Z"] mirrored_state
      mirrored_state_tracked).1 mirrored_state (some "Z") (fun id hid => by
        cases hid
        decide),
    (sync_deleted_folders_correct [some "X", none, some "Z"] mirrored_state
      mirrored_state_tracked).2.2.2.2,
    by decide⟩

/-- Claim C4, witness: a successful pass at `connected_state`. -/
theorem sync_folders_success_witness :
    (e_ews_backend_ref_connection_sync none connected_state).1 =
      Except.ok { serial := 7, hosturl := some "https://ews.example/EWS" } ∧
    (e_ews_backend_sync_folders_sync none (Except.ok example_delta) connected_state).1 = none ∧
    (e_ews_backend_sync_folders_sync none (Except.ok example_delta)
      connected_state).2.priv.sync_state = some "token-2" ∧
    (e_ews_backend_sync_folders_sync none (Except.ok example_delta) connected_state).2.idle =
      [{ folders_created := [example_folder "A" EEwsFolderType.calendar]
         folders_deleted := [some "Z"]
         folders_updated := [] }] :=
  ⟨rfl,
    (sync_folders_success none example_delta connected_state
      { serial := 7, hosturl := some "https://ews.example/EWS" } rfl).1,
    (sync_folders_success none example_delta connected_state
      { serial := 7, hosturl := some "https://ews.example/EWS" } rfl).2.1,
    (sync_folders_success none example_delta connected_state
      { serial := 7, hosturl := some "https://ews.example/EWS" } rfl).2.2.1⟩

/-- Claim C5, witness: a pass at `connected_state` whose hierarchy request is
cancelled. -/
theorem sync_folders_failure_witness :
    (e_ews_backend_sync_folders_sync none
      (Except.error { code := GErrorCode.cancelled, message := "cancelled" })
      connected_state).1 = some { code := GErrorCode.cancelled, message := "cancelled" } ∧
    (e_ews_backend_sync_folders_sync none
      (Except.error { code := GErrorCode.cancelled, message := "cancelled" })
      connected_state).2.priv.sync_state = some "token-1" ∧
    (e_ews_backend_sync_folders_sync none
      (Except.error { code := GErrorCode.cancelled, message := "cancelled" })
      connected_state).2.idle = [] :=
  ⟨rfl,
    ((sync_folders_failure none
      (Except.error { code := GErrorCode.cancelled, message := "cancelled" })
      connected_state).2.2 _ rfl).1,
    ((sync_folders_failure none
      (Except.error { code := GErrorCode.cancelled, message := "cancelled" })
      connected_state).2.2 _ rfl).2.2.1⟩

/-- Claim C6, counterexample.  Two callers find no connection in
`example_state`.  The first authenticates and publishes connection 0.  The
second then authenticates connection 1, finds connection 0 published, and its
publish step stores connection 1 in its place and returns connection 1: the
published connection has been replaced and the two callers hold different
connections. -/
theorem ref_connection_publish_counterexample :
    ref_connection_check example_state = none ∧
    (ref_connection_publish (ref_connection_new example_state).1 none
      (ref_connection_new example_state).2).1 =
        Except.ok { serial := 0, hosturl := some "https://ews.example/EWS" } ∧
    ref_connection_check first_published =
      some { serial := 0, hosturl := some "https://ews.example/EWS" } ∧
    (ref_connection_publish (ref_connection_new first_published).1 none
      (ref_connection_new first_published).2).1 =
        Except.ok { serial := 1, hosturl := some "https://ews.example/EWS" } ∧
    ref_connection_check second_published =
      some { serial := 1, hosturl := some "https://ews.example/EWS" } ∧
    ref_connection_check second_published ≠ ref_connection_check first_published := by
  refine ⟨rfl, rfl, rfl, rfl, rfl, ?_⟩
  decide

/-- Claim C6, witness: the publish step of a caller with connection 1 in
`first_published`, where connection 0 is published. -/
theorem ref_connection_publish_replaces_witness :
    (ref_connection_publish { serial := 1, hosturl := none } none
      first_published).2.priv.connection = some { serial := 1, hosturl := none } :=
  (ref_connection_publish_replaces { serial := 1, hosturl := none } first_published).2.1

/-- Claim C7, witness: a connection request at `connected_state`. -/
theorem ref_connection_existing_witness :
    connected_state.priv.connection =
      some { serial := 7, hosturl := some "https://ews.example/EWS" } ∧
    e_ews_backend_ref_connection_sync none connected_state =
      (Except.ok { serial := 7, hosturl := some "https://ews.example/EWS" },
        connected_state) :=
  ⟨rfl, (ref_connection_existing none connected_state _ rfl).1⟩

/-- Claim C8, witness: a failed authentication at `example_state`. -/
theorem ref_connection_failure_not_cached_witness :
    example_state.priv.connection = none ∧
    (e_ews_backend_ref_connection_sync
      (some { code := GErrorCode.authentication_failed, message := "denied" })
      example_state).1 =
        Except.error { code := GErrorCode.authentication_failed, message := "denied" } ∧
    (e_ews_backend_ref_connection_sync
      (some { code := GErrorCode.authentication_failed, message := "denied" })
      example_state).2.priv.connection = none :=
  ⟨rfl,
    (ref_connection_failure_not_cached
      { code := GErrorCode.authentication_failed, message := "denied" } example_state rfl).1,
    (ref_connection_failure_not_cached
      { code := GErrorCode.authentication_failed, message := "denied" }
      example_state rfl).2.2.1⟩

/-- Claim C9, as amended.  In every state the backend reaches from an initial
state, every entry of the folder index maps its id to a registered child of
the collection that carries the folder extension with that id.  When no two
registered children carry the same folder id in any state on the way, an id
is a key of the folder index if and only if a registered child carries the
folder extension with that id. -/
theorem folder_index_agrees_with_registry (ok : State → Prop) (st : State)
    (h : Reachable ok st) :
    (∀ id source, ews_backend_folders_lookup st id = some source →
      source ∈ local_sources id st) ∧
    ((∀ s, ok s → DistinctIds s) →
      ∀ id, ews_backend_folders_contains st id = true ↔ local_sources id st ≠ []) := by
  have ht := tracked_reachable ok st h
  have hstale : ∀ id source, ews_backend_folders_lookup st id = some source →
      source ∈ local_sources id st := by
    intro id source hl
    obtain ⟨h1, h2, h3⟩ := ht (id, source) (mem_of_lookup id source _ hl)
    simp only [local_sources, List.mem_filter, Bool.and_eq_true, decide_eq_true_eq]
    exact ⟨h1, h2, h3⟩
  refine ⟨hstale, fun hok id => ⟨fun hc => ?_, fun hne => ?_⟩⟩
  · cases hl : ews_backend_folders_lookup st id with
    | none =>
      simp only [ews_backend_folders_contains] at hc
      simp only [ews_backend_folders_lookup] at hl
      rw [hl] at hc
      exact Bool.noConfusion hc
    | some source => exact List.ne_nil_of_mem (hstale id source hl)
  · obtain ⟨source, hs⟩ := List.exists_mem_of_ne_nil _ hne
    simp only [local_sources, List.mem_filter, Bool.and_eq_true, decide_eq_true_eq] at hs
    have hm := mirrored_reachable ok hok st h source hs.1 hs.2.1 id (by simp [hs.2.2])
    simp [ews_backend_folders_contains, hm]

/-- Claim C9, counterexample.  The backend reaches `shadowed_state` by a
reconcile job and two changes of the directory selection.  There the calendar
"A" is a registered child that carries the folder extension with id "X", and
"X" is not a key of the folder index. -/
theorem folder_index_agrees_counterexample :
    Reachable (fun _ => True) shadowed_state ∧
    ews_backend_folders_contains shadowed_state "X" = false ∧
    (local_sources "X" shadowed_state).map (fun s => s.display_name) = [some "A"] ∧
    ¬ (ews_backend_folders_contains shadowed_state "X" = true ↔
      local_sources "X" shadowed_state ≠ []) := by
  refine ⟨shadowed_state_reachable, by decide, by decide, ?_⟩
  decide

/-- Claim C9, witness: the amended claim at `mirrored_state`. -/
theorem folder_index_agrees_with_registry_witness :
    Reachable DistinctIds mirrored_state ∧
    (∀ id source, ews_backend_folders_lookup mirrored_state id = some source →
      source ∈ local_sources id mirrored_state) ∧
    (∀ id, ews_backend_folders_contains mirrored_state id = true ↔
      local_sources id mirrored_state ≠ []) :=
  ⟨mirrored_state_reachable DistinctIds example_state_distinct mirrored_state_distinct,
    (folder_index_agrees_with_registry DistinctIds mirrored_state
      (mirrored_state_reachable DistinctIds example_state_distinct mirrored_state_distinct)).1,
    (folder_index_agrees_with_registry DistinctIds mirrored_state
      (mirrored_state_reachable DistinctIds example_state_distinct mirrored_state_distinct)).2
      (fun _ hs => hs)⟩

/-- Claim C10, witness: the created calendar "A" with id "X" at the new
backend. -/
theorem sync_created_folder_registers_one_source_witness :
    ews_backend_folders_lookup example_state "X" = none ∧
    ∃ source : ESource,
      (sync_created_folder (example_folder "A" EEwsFolderType.calendar) example_state).registry =
        example_state.registry ++ [source] ∧
      source.calendar = some { backend_name := some "ews" } ∧
      source.display_name = some "A" ∧
      source.ews_folder = some { id := some "X", change_key := some "ck" } ∧
      source.offline = some true ∧
      source.remote_deletable = true :=
  ⟨rfl, by
    obtain ⟨source, _, h2, _, _, h5, _, _, h8, h9, h10, h11⟩ :=
      sync_created_folder_registers_one_source (example_folder "A" EEwsFolderType.calendar)
        "X" [] example_state rfl rfl (Or.inl rfl)
    exact ⟨source, h2, (h5 rfl).1, h8, h9, h10, h11⟩⟩

/-! ## Creating and deleting a resource, written out -/

theorem create_resource_target_none (source : ESource) (h1 : source.address_book = none)
    (h2 : source.calendar = none) (h3 : source.task_list = none) :
    create_resource_target source = (EEwsFolderType.unknown, none) := by
  simp [create_resource_target, h1, h2, h3]

theorem create_resource_target_tasks (source : ESource)
    (h : source.task_list.isSome = true) :
    create_resource_target source = (EEwsFolderType.tasks, some "tasks") := by
  simp [create_resource_target, h]

theorem create_resource_target_calendar (source : ESource) (h3 : source.task_list = none)
    (h : source.calendar.isSome = true) :
    create_resource_target source = (EEwsFolderType.calendar, some "calendar") := by
  simp [create_resource_target, h, h3]

theorem create_resource_target_contacts (source : ESource) (h3 : source.task_list = none)
    (h2 : source.calendar = none) (h : source.address_book.isSome = true) :
    create_resource_target source = (EEwsFolderType.contacts, some "contacts") := by
  simp [create_resource_target, h, h2, h3]

theorem create_resource_target_some (source : ESource)
    (h : source.address_book.isSome = true ∨ source.calendar.isSome = true ∨
      source.task_list.isSome = true) :
    ∃ folder_type parent_folder_id,
      create_resource_target source = (folder_type, some parent_folder_id) := by
  cases h3 : source.task_list with
  | some t => exact ⟨_, _, create_resource_target_tasks source (by simp [h3])⟩
  | none =>
    cases h2 : source.calendar with
    | some c => exact ⟨_, _, create_resource_target_calendar source h3 (by simp [h2])⟩
    | none =>
      cases h1 : source.address_book with
      | some a =>
        exact ⟨_, _, create_resource_target_contacts source h3 h2 (by simp [h1])⟩
      | none => simp [h1, h2, h3] at h

theorem create_resource_no_connection (auth_error : Option GError)
    (reply : Except GError EwsFolderId) (source : ESource) (st : State) (e : GError)
    (h : (e_ews_backend_ref_connection_sync auth_error st).1 = Except.error e) :
    ews_backend_create_resource_sync auth_error reply source st =
      (some e, source, (e_ews_backend_ref_connection_sync auth_error st).2) := by
  unfold ews_backend_create_resource_sync
  generalize e_ews_backend_ref_connection_sync auth_error st = res at h ⊢
  obtain ⟨r, st1⟩ := res
  simp only at h
  subst h
  rfl

theorem create_resource_no_target (auth_error : Option GError)
    (reply : Except GError EwsFolderId) (source : ESource) (st : State)
    (connection : EEwsConnection) (folder_type : EEwsFolderType)
    (h : (e_ews_backend_ref_connection_sync auth_error st).1 = Except.ok connection)
    (ht : create_resource_target source = (folder_type, none)) :
    ews_backend_create_resource_sync auth_error reply source st =
      (some { code := GErrorCode.invalid_argument
              message := create_resource_message source.display_name },
        source, (e_ews_backend_ref_connection_sync auth_error st).2) := by
  unfold ews_backend_create_resource_sync
  generalize e_ews_backend_ref_connection_sync auth_error st = res at h ⊢
  obtain ⟨r, st1⟩ := res
  simp only at h
  subst h
  simp only [ht]

theorem create_resource_remote_error (auth_error : Option GError) (e : GError)
    (source : ESource) (st : State) (connection : EEwsConnection)
    (folder_type : EEwsFolderType) (parent_folder_id : String)
    (h : (e_ews_backend_ref_connection_sync auth_error st).1 = Except.ok connection)
    (ht : create_resource_target source = (folder_type, some parent_folder_id)) :
    ews_backend_create_resource_sync auth_error (Except.error e) source st =
      (some e, source,
        { (e_ews_backend_ref_connection_sync auth_error st).2 with
          calls := (e_ews_backend_ref_connection_sync auth_error st).2.calls ++
            [Call.create_folder connection parent_folder_id source.display_name
              folder_type] }) := by
  unfold ews_backend_create_resource_sync
  generalize e_ews_backend_ref_connection_sync auth_error st = res at h ⊢
  obtain ⟨r, st1⟩ := res
  simp only at h
  subst h
  simp only [ht]

/-- The source `ews_backend_create_resource_sync` registers after the remote
service has made the folder, written out. -/
theorem create_resource_remote_ok (auth_error : Option GError) (out_folder_id : EwsFolderId)
    (source : ESource) (st : State) (connection : EEwsConnection)
    (folder_type : EEwsFolderType) (parent_folder_id : String)
    (h : (e_ews_backend_ref_connection_sync auth_error st).1 = Except.ok connection)
    (ht : create_resource_target source = (folder_type, some parent_folder_id)) :
    ews_backend_create_resource_sync auth_error (Except.ok out_folder_id) source st =
      (none, created_resource st source out_folder_id,
        e_source_registry_server_add_source (created_resource st source out_folder_id)
          { (e_ews_backend_ref_connection_sync auth_error st).2 with
            calls := (e_ews_backend_ref_connection_sync auth_error st).2.calls ++
              [Call.create_folder connection parent_folder_id source.display_name
                folder_type] }) := by
  have hf : (e_ews_backend_ref_connection_sync auth_error st).2.collection_uid =
        st.collection_uid ∧
      (e_ews_backend_ref_connection_sync auth_error st).2.cache_dir = st.cache_dir := by
    rcases ref_connection_cases auth_error st with ⟨c, _, hc⟩ | ⟨_, _, hc⟩ | ⟨e, _, _, hc⟩ <;>
      rw [hc] <;> exact ⟨rfl, rfl⟩
  unfold ews_backend_create_resource_sync
  generalize e_ews_backend_ref_connection_sync auth_error st = res at h hf ⊢
  obtain ⟨r, st1⟩ := res
  simp only at h hf
  subst h
  simp only [ht, created_resource, hf.1, hf.2]

theorem delete_resource_no_connection (auth_error reply : Option GError) (source : ESource)
    (st : State) (e : GError)
    (h : (e_ews_backend_ref_connection_sync auth_error st).1 = Except.error e) :
    ews_backend_delete_resource_sync auth_error reply source st =
      (some e, (e_ews_backend_ref_connection_sync auth_error st).2) := by
  unfold ews_backend_delete_resource_sync
  generalize e_ews_backend_ref_connection_sync auth_error st = res at h ⊢
  obtain ⟨r, st1⟩ := res
  simp only at h
  subst h
  rfl

theorem delete_resource_no_extension (auth_error reply : Option GError) (source : ESource)
    (st : State) (connection : EEwsConnection)
    (h : (e_ews_backend_ref_connection_sync auth_error st).1 = Except.ok connection)
    (hx : source.ews_folder = none) :
    ews_backend_delete_resource_sync auth_error reply source st =
      (some { code := GErrorCode.invalid_argument
              message := delete_resource_message source.display_name },
        (e_ews_backend_ref_connection_sync auth_error st).2) := by
  unfold ews_backend_delete_resource_sync
  generalize e_ews_backend_ref_connection_sync auth_error st = res at h ⊢
  obtain ⟨r, st1⟩ := res
  simp only at h
  subst h
  simp only [hx]

theorem delete_resource_remote (auth_error reply : Option GError) (source : ESource)
    (st : State) (connection : EEwsConnection) (extension : ESourceEwsFolder)
    (h : (e_ews_backend_ref_connection_sync auth_error st).1 = Except.ok connection)
    (hx : source.ews_folder = some extension) :
    ews_backend_delete_resource_sync auth_error reply source st =
      match reply with
      | some e =>
        (some e,
          { (e_ews_backend_ref_connection_sync auth_error st).2 with
            calls := (e_ews_backend_ref_connection_sync auth_error st).2.calls ++
              [Call.delete_folder connection extension.id "HardDelete"] })
      | none =>
        (none, e_source_registry_server_remove_source source
          { (e_ews_backend_ref_connection_sync auth_error st).2 with
            calls := (e_ews_backend_ref_connection_sync auth_error st).2.calls ++
              [Call.delete_folder connection extension.id "HardDelete"] }) := by
  unfold ews_backend_delete_resource_sync
  generalize e_ews_backend_ref_connection_sync auth_error st = res at h ⊢
  obtain ⟨r, st1⟩ := res
  simp only at h
  subst h
  simp only [hx]

/-! ## The claims about created entries and resources -/

theorem ref_connection_collection (auth_error : Option GError) (st : State) :
    (e_ews_backend_ref_connection_sync auth_error st).2.collection_uid = st.collection_uid ∧
    (e_ews_backend_ref_connection_sync auth_error st).2.cache_dir = st.cache_dir ∧
    (e_ews_backend_ref_connection_sync auth_error st).2.collection_display_name =
      st.collection_display_name ∧
    (e_ews_backend_ref_connection_sync auth_error st).2.collection_identity =
      st.collection_identity ∧
    (e_ews_backend_ref_connection_sync auth_error st).2.next_uid = st.next_uid := by
  rcases ref_connection_cases auth_error st with ⟨c, _, h⟩ | ⟨_, _, h⟩ | ⟨e, _, _, h⟩ <;>
    rw [h] <;> exact ⟨rfl, rfl, rfl, rfl, rfl⟩

/-- Claim C11.  A created entry whose type is not calendar, tasks or contacts
(unknown, mail) leaves the whole state as it was, so it makes no source and
no registry call; the loop has no error result and goes on with the rest of
the list. -/
theorem sync_created_folder_unmirrored (folder : EEwsFolder) (rest : List EEwsFolder)
    (st : State)
    (hkind : folder.folder_type ≠ EEwsFolderType.calendar ∧
      folder.folder_type ≠ EEwsFolderType.tasks ∧
      folder.folder_type ≠ EEwsFolderType.contacts) :
    sync_created_folder folder st = st ∧
    (sync_created_folder folder st).registry = st.registry ∧
    (sync_created_folder folder st).calls = st.calls ∧
    ews_backend_sync_created_folders (folder :: rest) st =
      ews_backend_sync_created_folders rest st := by
  have hm : mirrored_type folder.folder_type = false := by
    obtain ⟨h1, h2, h3⟩ := hkind
    cases hft : folder.folder_type <;> simp [hft, mirrored_type] at h1 h2 h3 ⊢
  have h := sync_created_folder_skip folder st (Or.inr (Or.inl hm))
  refine ⟨h, by rw [h], by rw [h], ?_⟩
  simp only [ews_backend_sync_created_folders, h]

/-- Claim C12, as amended.  For a source without the address-book, calendar
and task-list extensions, `ews_backend_create_resource_sync` first asks for
the connection.  When the connection is obtained it returns an
invalid-argument error whose message holds the display name of the source;
when it is not, it returns the error of the authentication.  In every case
the state after the call is the one the connection request left, so no
folder-create call and no registry call is made, the source is as it was,
and with a connection already published nothing at all has changed. -/
theorem create_resource_without_extension (auth_error : Option GError)
    (reply : Except GError EwsFolderId) (source : ESource) (st : State)
    (h1 : source.address_book = none) (h2 : source.calendar = none)
    (h3 : source.task_list = none) :
    (∀ connection,
      (e_ews_backend_ref_connection_sync auth_error st).1 = Except.ok connection →
      (ews_backend_create_resource_sync auth_error reply source st).1 =
        some { code := GErrorCode.invalid_argument
               message := create_resource_message source.display_name }) ∧
    (∀ e, (e_ews_backend_ref_connection_sync auth_error st).1 = Except.error e →
      (ews_backend_create_resource_sync auth_error reply source st).1 = some e) ∧
    (∀ name, create_resource_message (some name) =
      "Could not determine a suitable folder class for a new folder named \x27" ++ name ++
        "\x27") ∧
    (ews_backend_create_resource_sync auth_error reply source st).2.2 =
      (e_ews_backend_ref_connection_sync auth_error st).2 ∧
    (∀ connection, st.priv.connection = some connection →
      (ews_backend_create_resource_sync auth_error reply source st).2.2 = st) ∧
    (ews_backend_create_resource_sync auth_error reply source st).2.1 = source ∧
    (ews_backend_create_resource_sync auth_error reply source st).2.2.registry =
      st.registry ∧
    (ews_backend_create_resource_sync auth_error reply source st).2.2.priv.folders =
      st.priv.folders := by
  have ht := create_resource_target_none source h1 h2 h3
  have hstate : (ews_backend_create_resource_sync auth_error reply source st).2 =
      (source, (e_ews_backend_ref_connection_sync auth_error st).2) := by
    cases hr : (e_ews_backend_ref_connection_sync auth_error st).1 with
    | error e => rw [create_resource_no_connection auth_error reply source st e hr]
    | ok connection =>
      rw [create_resource_no_target auth_error reply source st connection _ hr ht]
  obtain ⟨hf1, hf2, _, hf4, _, _⟩ := ref_connection_frame auth_error st
  refine ⟨fun connection hr => ?_, fun e hr => ?_, fun name => rfl, ?_, fun connection hc => ?_,
    ?_, ?_, ?_⟩
  · rw [create_resource_no_target auth_error reply source st connection _ hr ht]
  · rw [create_resource_no_connection auth_error reply source st e hr]
  · rw [hstate]
  · rw [hstate]
    exact congrArg Prod.snd (ref_connection_existing auth_error st connection hc).1
  · rw [hstate]
  · rw [hstate]; exact hf4
  · rw [hstate]; exact hf2

/-- Claim C13.  `ews_backend_create_resource_sync` takes the target from the
typed extension of the source: task list gives tasks with parent "tasks",
calendar (without task list) gives calendar with parent "calendar", address
book (without the other two) gives contacts with parent "contacts".  With
the connection obtained, the one folder-create call it makes has exactly
that parent id and type and the display name of the source as folder name;
the only call after it is the registration of the source. -/
theorem create_resource_target_and_call (auth_error : Option GError)
    (reply : Except GError EwsFolderId) (source : ESource) (st : State)
    (connection : EEwsConnection)
    (hconn : (e_ews_backend_ref_connection_sync auth_error st).1 = Except.ok connection) :
    (source.task_list.isSome = true →
      create_resource_target source = (EEwsFolderType.tasks, some "tasks")) ∧
    (source.task_list = none → source.calendar.isSome = true →
      create_resource_target source = (EEwsFolderType.calendar, some "calendar")) ∧
    (source.task_list = none → source.calendar = none →
      source.address_book.isSome = true →
      create_resource_target source = (EEwsFolderType.contacts, some "contacts")) ∧
    (∀ folder_type parent_folder_id,
      create_resource_target source = (folder_type, some parent_folder_id) →
      ∃ tail,
        (ews_backend_create_resource_sync auth_error reply source st).2.2.calls =
          (e_ews_backend_ref_connection_sync auth_error st).2.calls ++
            (Call.create_folder connection parent_folder_id source.display_name folder_type ::
              tail) ∧
        (tail = [] ∨ ∃ registered, tail = [Call.add_source registered])) := by
  refine ⟨create_resource_target_tasks source, create_resource_target_calendar source,
    create_resource_target_contacts source, fun folder_type parent_folder_id ht => ?_⟩
  cases reply with
  | error e =>
    rw [create_resource_remote_error auth_error e source st connection _ _ hconn ht]
    exact ⟨[], rfl, Or.inl rfl⟩
  | ok out_folder_id =>
    rw [create_resource_remote_ok auth_error out_folder_id source st connection _ _ hconn ht,
      add_source_eq]
    refine ⟨[Call.add_source (created_resource st source out_folder_id)], ?_, Or.inr ⟨_, rfl⟩⟩
    simp

theorem add_created_resource (st other : State) (source : ESource)
    (out_folder_id : EwsFolderId) (id : String)
    (h1 : other.collection_uid = st.collection_uid)
    (h2 : other.collection_display_name = st.collection_display_name)
    (h3 : other.collection_identity = st.collection_identity)
    (h4 : other.registry = st.registry)
    (hid : out_folder_id.id = some id) :
    (e_source_registry_server_add_source (created_resource st source out_folder_id)
        other).registry =
      st.registry ++ [child_added_bindings st (created_resource st source out_folder_id)] ∧
    g_hash_table_lookup id
        (e_source_registry_server_add_source (created_resource st source out_folder_id)
          other).priv.folders =
      some (child_added_bindings st (created_resource st source out_folder_id)) ∧
    (e_source_registry_server_add_source (created_resource st source out_folder_id)
        other).calls =
      other.calls ++ [Call.add_source (created_resource st source out_folder_id)] := by
  have hchild : is_child other (created_resource st source out_folder_id) = true := by
    simp [is_child, created_resource, h1]
  have htracked : tracked_folder_id (created_resource st source out_folder_id) = some id := by
    simp [tracked_folder_id, created_resource, hid]
  have hform : registered_form other (created_resource st source out_folder_id) =
      child_added_bindings st (created_resource st source out_folder_id) := by
    simp only [registered_form, hchild, if_true, child_added_bindings, h2, h3]
  rw [add_source_eq]
  simp only [hchild, if_true, htracked, hform, h4, lookup_insert_self, and_self]

/-- Claim C14.  When the connection is obtained, the source has a typed
extension, and the folder-create call returns a folder id with change key,
`ews_backend_create_resource_sync` returns success; the source then has the
returned id and change key on its folder extension, the collection as
parent, the cache directory as write directory, and is writable and remotely
deletable; it is registered through one `add_source` call, and the folder
index maps the returned id to the registered source, which is the source
itself but for the bindings a mail source gets. -/
theorem create_resource_success (auth_error : Option GError) (out_folder_id : EwsFolderId)
    (id : String) (source : ESource) (st : State) (connection : EEwsConnection)
    (hconn : (e_ews_backend_ref_connection_sync auth_error st).1 = Except.ok connection)
    (hext : source.address_book.isSome = true ∨ source.calendar.isSome = true ∨
      source.task_list.isSome = true)
    (hid : out_folder_id.id = some id) :
    (ews_backend_create_resource_sync auth_error (Except.ok out_folder_id) source st).1 =
      none ∧
    (ews_backend_create_resource_sync auth_error (Except.ok out_folder_id) source st).2.1 =
      created_resource st source out_folder_id ∧
    (created_resource st source out_folder_id).ews_folder =
      some { id := some id, change_key := out_folder_id.change_key } ∧
    (created_resource st source out_folder_id).parent = some st.collection_uid ∧
    (created_resource st source out_folder_id).write_directory = st.cache_dir ∧
    (created_resource st source out_folder_id).writable = true ∧
    (created_resource st source out_folder_id).remote_deletable = true ∧
    (created_resource st source out_folder_id).uid = source.uid ∧
    (ews_backend_create_resource_sync auth_error (Except.ok out_folder_id) source
        st).2.2.registry =
      st.registry ++ [child_added_bindings st (created_resource st source out_folder_id)] ∧
    (∃ calls, (ews_backend_create_resource_sync auth_error (Except.ok out_folder_id) source
        st).2.2.calls =
      calls ++ [Call.add_source (created_resource st source out_folder_id)]) ∧
    ews_backend_folders_lookup
        (ews_backend_create_resource_sync auth_error (Except.ok out_folder_id) source st).2.2
        id =
      some (child_added_bindings st (created_resource st source out_folder_id)) ∧
    (is_mail source = false →
      child_added_bindings st (created_resource st source out_folder_id) =
        created_resource st source out_folder_id) := by
  obtain ⟨folder_type, parent_folder_id, ht⟩ := create_resource_target_some source hext
  obtain ⟨hc1, _, hc3, hc4, _⟩ := ref_connection_collection auth_error st
  obtain ⟨_, _, _, hf4, _, _⟩ := ref_connection_frame auth_error st
  rw [create_resource_remote_ok auth_error out_folder_id source st connection _ _ hconn ht]
  obtain ⟨hreg, hlook, hcalls⟩ := add_created_resource st
    { (e_ews_backend_ref_connection_sync auth_error st).2 with
      calls := (e_ews_backend_ref_connection_sync auth_error st).2.calls ++
        [Call.create_folder connection parent_folder_id source.display_name folder_type] }
    source out_folder_id id hc1 hc3 hc4 hf4 hid
  refine ⟨rfl, rfl, ?_, rfl, rfl, rfl, rfl, rfl, hreg, ⟨_, hcalls⟩, hlook, fun hm => ?_⟩
  · simp [created_resource, hid]
  · have hm2 : is_mail (created_resource st source out_folder_id) = false := by
      simpa [is_mail, created_resource] using hm
    simp [child_added_bindings, hm2]

/-- Claim C15.  `ews_backend_create_resource_sync` fails when the connection
is not obtained, when the source has no suitable extension, and when the
folder-create call returns an error.  Whenever it fails, the source is as it
was before the call, so its folder id and change key have not been set, and
registry and folder index are as before: the source has not been
registered. -/
theorem create_resource_failure (auth_error : Option GError)
    (reply : Except GError EwsFolderId) (source : ESource) (st : State) :
    (∀ e, (e_ews_backend_ref_connection_sync auth_error st).1 = Except.error e →
      (ews_backend_create_resource_sync auth_error reply source st).1 = some e) ∧
    (∀ connection folder_type,
      (e_ews_backend_ref_connection_sync auth_error st).1 = Except.ok connection →
      create_resource_target source = (folder_type, none) →
      (ews_backend_create_resource_sync auth_error reply source st).1 =
        some { code := GErrorCode.invalid_argument
               message := create_resource_message source.display_name }) ∧
    (∀ connection folder_type parent_folder_id e,
      (e_ews_backend_ref_connection_sync auth_error st).1 = Except.ok connection →
      create_resource_target source = (folder_type, some parent_folder_id) →
      reply = Except.error e →
      (ews_backend_create_resource_sync auth_error reply source st).1 = some e) ∧
    (∀ e, (ews_backend_create_resource_sync auth_error reply source st).1 = some e →
      (ews_backend_create_resource_sync auth_error reply source st).2.1 = source ∧
      (ews_backend_create_resource_sync auth_error reply source st).2.2.registry =
        st.registry ∧
      (ews_backend_create_resource_sync auth_error reply source st).2.2.priv.folders =
        st.priv.folders ∧
      ∀ registered, Call.add_source registered ∈
        (ews_backend_create_resource_sync auth_error reply source st).2.2.calls →
          Call.add_source registered ∈
            (e_ews_backend_ref_connection_sync auth_error st).2.calls) := by
  obtain ⟨_, hf2, _, hf4, _, _⟩ := ref_connection_frame auth_error st
  refine ⟨fun e hr => ?_, fun connection folder_type hr ht => ?_,
    fun connection folder_type parent_folder_id e hr ht he => ?_, fun e hfail => ?_⟩
  · rw [create_resource_no_connection auth_error reply source st e hr]
  · rw [create_resource_no_target auth_error reply source st connection _ hr ht]
  · rw [he, create_resource_remote_error auth_error e source st connection _ _ hr ht]
  · cases hr : (e_ews_backend_ref_connection_sync auth_error st).1 with
    | error e1 =>
      rw [create_resource_no_connection auth_error reply source st e1 hr]
      exact ⟨rfl, hf4, hf2, fun _ h => h⟩
    | ok connection =>
      cases htarget : create_resource_target source with
      | mk folder_type parent =>
        cases parent with
        | none =>
          rw [create_resource_no_target auth_error reply source st connection _ hr htarget]
          exact ⟨rfl, hf4, hf2, fun _ h => h⟩
        | some parent_folder_id =>
          cases reply with
          | error e2 =>
            rw [create_resource_remote_error auth_error e2 source st connection _ _ hr
              htarget]
            refine ⟨rfl, hf4, hf2, fun registered h => ?_⟩
            simpa using h
          | ok out_folder_id =>
            rw [create_resource_remote_ok auth_error out_folder_id source st connection _ _
              hr htarget] at hfail
            cases hfail

/-- Claim C16, as amended.  For a source without the folder extension,
`ews_backend_delete_resource_sync` first asks for the connection.  When the
connection is obtained it returns an invalid-argument error whose message
holds the display name of the source; when it is not, it returns the error
of the authentication.  In every case the state after the call is the one
the connection request left: no remote delete is issued, no registry call is
made, and registry and folder index are as before. -/
theorem delete_resource_without_extension (auth_error reply : Option GError)
    (source : ESource) (st : State) (hx : source.ews_folder = none) :
    (∀ connection,
      (e_ews_backend_ref_connection_sync auth_error st).1 = Except.ok connection →
      (ews_backend_delete_resource_sync auth_error reply source st).1 =
        some { code := GErrorCode.invalid_argument
               message := delete_resource_message source.display_name }) ∧
    (∀ e, (e_ews_backend_ref_connection_sync auth_error st).1 = Except.error e →
      (ews_backend_delete_resource_sync auth_error reply source st).1 = some e) ∧
    (ews_backend_delete_resource_sync auth_error reply source st).2 =
      (e_ews_backend_ref_connection_sync auth_error st).2 ∧
    (ews_backend_delete_resource_sync auth_error reply source st).2.registry = st.registry ∧
    (ews_backend_delete_resource_sync auth_error reply source st).2.priv.folders =
      st.priv.folders := by
  have hstate : (ews_backend_delete_resource_sync auth_error reply source st).2 =
      (e_ews_backend_ref_connection_sync auth_error st).2 := by
    cases hr : (e_ews_backend_ref_connection_sync auth_error st).1 with
    | error e => rw [delete_resource_no_connection auth_error reply source st e hr]
    | ok connection =>
      rw [delete_resource_no_extension auth_error reply source st connection hr hx]
  obtain ⟨_, hf2, _, hf4, _, _⟩ := ref_connection_frame auth_error st
  refine ⟨fun connection hr => ?_, fun e hr => ?_, hstate, ?_, ?_⟩
  · rw [delete_resource_no_extension auth_error reply source st connection hr hx]
  · rw [delete_resource_no_connection auth_error reply source st e hr]
  · rw [hstate]; exact hf4
  · rw [hstate]; exact hf2

/-- Claim C17.  With the connection obtained, `ews_backend_delete_resource_sync`
on a source with the folder extension makes one delete call, of type
"HardDelete", for exactly the id stored on the source, and after it at most
the removal of the source from the registry.  When the remote call succeeds
the source is no longer registered, and the id of a source that was a
registered child of the collection is no longer in the folder index.  When
the remote call fails the error is returned and registry and folder index
are as before. -/
theorem delete_resource_hard_delete (auth_error reply : Option GError) (source : ESource)
    (st : State) (connection : EEwsConnection) (extension : ESourceEwsFolder)
    (hconn : (e_ews_backend_ref_connection_sync auth_error st).1 = Except.ok connection)
    (hx : source.ews_folder = some extension) :
    (∃ tail,
      (ews_backend_delete_resource_sync auth_error reply source st).2.calls =
        (e_ews_backend_ref_connection_sync auth_error st).2.calls ++
          (Call.delete_folder connection extension.id "HardDelete" :: tail) ∧
      (tail = [] ∨ tail = [Call.remove_source source])) ∧
    (reply = none →
      (ews_backend_delete_resource_sync auth_error reply source st).1 = none ∧
      source ∉ (ews_backend_delete_resource_sync auth_error reply source st).2.registry ∧
      (∀ other ∈ st.registry, other ≠ source →
        other ∈ (ews_backend_delete_resource_sync auth_error reply source st).2.registry) ∧
      (source ∈ st.registry → is_child st source = true →
        ∀ id, extension.id = some id →
          ews_backend_folders_lookup
            (ews_backend_delete_resource_sync auth_error reply source st).2 id = none)) ∧
    (∀ e, reply = some e →
      (ews_backend_delete_resource_sync auth_error reply source st).1 = some e ∧
      (ews_backend_delete_resource_sync auth_error reply source st).2.registry =
        st.registry ∧
      (ews_backend_delete_resource_sync auth_error reply source st).2.priv.folders =
        st.priv.folders) := by
  obtain ⟨hc1, _, _, _, _⟩ := ref_connection_collection auth_error st
  obtain ⟨_, hf2, _, hf4, _, _⟩ := ref_connection_frame auth_error st
  rw [delete_resource_remote auth_error reply source st connection extension hconn hx]
  cases reply with
  | some e =>
    dsimp only
    refine ⟨⟨[], rfl, Or.inl rfl⟩, ?_, ?_⟩
    · intro h
      cases h
    · intro e2 he
      exact ⟨he, hf4, hf2⟩
  | none =>
    dsimp only
    rw [remove_source_eq]
    refine ⟨⟨[Call.remove_source source], ?_, Or.inr rfl⟩, ?_, ?_⟩
    · simp
    · intro _
      refine ⟨rfl, ?_, ?_, ?_⟩
      · simp [List.mem_filter]
      · intro other hmem hne
        simp only [List.mem_filter, decide_eq_true_eq, hf4]
        exact ⟨hmem, hne⟩
      · intro hmem hchild id hid
        have hm : source ∈ (e_ews_backend_ref_connection_sync auth_error st).2.registry := by
          rw [hf4]; exact hmem
        have hch : decide (source.parent =
            some (e_ews_backend_ref_connection_sync auth_error st).2.collection_uid) =
              true := by
          rw [hc1]; exact hchild
        have ht : tracked_folder_id source = some id := by
          simp [tracked_folder_id, hx, hid]
        simp only [ews_backend_folders_lookup, is_child, hm, hch, and_self, if_true, ht]
        exact lookup_remove_self id _
    · intro e he
      cases he

/-! ## The directory placeholder, written out -/

theorem strrchr_colon_none (chars : List Char) (h : ':' ∉ chars) :
    strrchr_colon chars = none := by
  induction chars with
  | nil => rfl
  | cons c rest ih =>
    have h1 : ¬ c = ':' := fun hc => h (by simp [hc])
    have h2 : ':' ∉ rest := fun hr => h (List.mem_cons_of_mem _ hr)
    simp [strrchr_colon, ih h2, h1]

theorem parse_oal_selected_default (oal_selected : Option String)
    (h : oal_selected = none ∨ ∃ s, oal_selected = some s ∧ ':' ∉ s.data) :
    parse_oal_selected oal_selected = none := by
  rcases h with h | ⟨s, h, hs⟩
  · simp [parse_oal_selected, h]
  · simp [parse_oal_selected, h, strrchr_colon_none s.data hs]

theorem add_gal_source_unparsed (st : State) (hres : gal_source_resolved st = none)
    (hparse : parse_oal_selected st.settings.oal_selected = none) :
    ews_backend_add_gal_source st =
      { st with
        priv := { st.priv with
          oal_selected := none
          folders := g_hash_table_insert "global-address-list"
            (gal_source (e_collection_backend_new_child "global-address-list" st).1
              "Global Address List" "global-address-list") st.priv.folders }
        registry := st.registry ++
          [gal_source (e_collection_backend_new_child "global-address-list" st).1
            "Global Address List" "global-address-list"]
        next_uid := st.next_uid + 1
        calls := st.calls ++
          [Call.add_source
            (gal_source (e_collection_backend_new_child "global-address-list" st).1
              "Global Address List" "global-address-list")]
        settings := { st.settings with gal_uid := some st.next_uid } } := by
  simp [ews_backend_add_gal_source, hres, hparse, add_source_eq, registered_form, is_child,
    child_added_bindings, is_mail, tracked_folder_id, gal_source,
    e_collection_backend_new_child]

/-- Claim C20.  When no stored directory-source uid resolves and the
directory selection of the settings is absent or has no colon,
`ews_backend_add_gal_source` registers one placeholder with the directory id
"global-address-list" and the display name "Global Address List"; the folder
index maps that id to it and its uid is stored in the settings. -/
theorem add_gal_source_default_pair (st : State) (hres : gal_source_resolved st = none)
    (hsel : st.settings.oal_selected = none ∨
      ∃ s, st.settings.oal_selected = some s ∧ ':' ∉ s.data) :
    ∃ placeholder : ESource,
      (ews_backend_add_gal_source st).registry = st.registry ++ [placeholder] ∧
      (ews_backend_add_gal_source st).calls = st.calls ++ [Call.add_source placeholder] ∧
      placeholder.display_name = some "Global Address List" ∧
      placeholder.ews_folder = some { id := some "global-address-list", change_key := none } ∧
      ews_backend_folders_lookup (ews_backend_add_gal_source st) "global-address-list" =
        some placeholder ∧
      (ews_backend_add_gal_source st).settings.gal_uid = some placeholder.uid := by
  rw [add_gal_source_unparsed st hres (parse_oal_selected_default _ hsel)]
  refine ⟨_, rfl, rfl, rfl, rfl, ?_, rfl⟩
  simp only [ews_backend_folders_lookup]
  exact lookup_insert_self _ _ _

/-- Claim C20, witness: the selection "abc", which has no colon, at the new
backend. -/
theorem add_gal_source_default_pair_witness :
    gal_source_resolved (with_oal_selected example_state (some "abc")) = none ∧
    ∃ placeholder : ESource,
      colon_free_state.registry = [placeholder] ∧
      placeholder.display_name = some "Global Address List" ∧
      placeholder.ews_folder =
        some { id := some "global-address-list", change_key := none } :=
  ⟨rfl, by
    obtain ⟨placeholder, h1, _, h3, h4, _⟩ :=
      add_gal_source_default_pair (with_oal_selected example_state (some "abc")) rfl
        (Or.inr ⟨"abc", rfl, by decide⟩)
    exact ⟨placeholder, h1, h3, h4⟩⟩

/-- Claim C18, at the failing input.  After the placeholder has been
provisioned for "abc:Sales", the notification for the selection "def:Eng"
removes it and registers one placeholder "Eng" with directory id "def",
whose uid is stored in the settings.  After the placeholder has been
provisioned for "a:b:c", the backend keeps "a:b" as the selection it
provisioned; the notification for the well-formed selection "a:b" then
changes nothing: the old placeholder "c" stays and no new one is
registered. -/
theorem source_changed_reprovision_evaluated :
    registry_summary sales_state = [(1, some "Sales", some "abc")] ∧
    registry_summary (ews_backend_source_changed_cb
      (with_oal_selected sales_state (some "def:Eng"))) = [(2, some "Eng", some "def")] ∧
    (ews_backend_source_changed_cb
      (with_oal_selected sales_state (some "def:Eng"))).settings.gal_uid = some 2 ∧
    registry_summary nested_state = [(1, some "c", some "a:b")] ∧
    nested_state.priv.oal_selected = some "a:b" ∧
    ews_backend_source_changed_cb (with_oal_selected nested_state (some "a:b")) =
      with_oal_selected nested_state (some "a:b") ∧
    registry_summary (ews_backend_source_changed_cb
      (with_oal_selected nested_state (some "a:b"))) = [(1, some "c", some "a:b")] := by
  refine ⟨by decide, by decide, by decide, by decide, by decide, by decide, by decide⟩

/-- Claim C19, at the failing inputs.  After the placeholder has been
provisioned for "abc:Sales" the backend keeps "abc" as the selection it
provisioned, and after the colon-free "abc" it keeps NULL; a notification
with the selection unchanged then differs from what the backend keeps, so
the placeholder with uid 1 is removed, a new one with uid 2 is registered and
the directory-source uid of the settings changes from 1 to 2.  Only with no
selection at all the notification changes nothing. -/
theorem source_changed_unchanged_selection_evaluated :
    sales_state.settings.oal_selected = some "abc:Sales" ∧
    sales_state.priv.oal_selected = some "abc" ∧
    registry_summary sales_state = [(1, some "Sales", some "abc")] ∧
    registry_summary (ews_backend_source_changed_cb sales_state) =
      [(2, some "Sales", some "abc")] ∧
    (ews_backend_source_changed_cb sales_state).calls.length = sales_state.calls.length + 2 ∧
    sales_state.settings.gal_uid = some 1 ∧
    (ews_backend_source_changed_cb sales_state).settings.gal_uid = some 2 ∧
    colon_free_state.priv.oal_selected = none ∧
    registry_summary colon_free_state =
      [(1, some "Global Address List", some "global-address-list")] ∧
    registry_summary (ews_backend_source_changed_cb colon_free_state) =
      [(2, some "Global Address List", some "global-address-list")] ∧
    (ews_backend_source_changed_cb colon_free_state).settings.gal_uid = some 2 ∧
    ews_backend_source_changed_cb absent_state = absent_state := by
  refine ⟨by decide, by decide, by decide, by decide, by decide, by decide, by decide,
    by decide, by decide, by decide, by decide, by decide⟩

/-! ## The claims about resources at concrete states -/

/-- Claim C11, witness: a created mail folder at the new backend, followed by
a calendar. -/
theorem sync_created_folder_unmirrored_witness :
    sync_created_folder (example_folder "Inbox" EEwsFolderType.mail) example_state =
      example_state ∧
    ews_backend_sync_created_folders
        [example_folder "Inbox" EEwsFolderType.mail,
          example_folder "A" EEwsFolderType.calendar] example_state =
      ews_backend_sync_created_folders [example_folder "A" EEwsFolderType.calendar]
        example_state :=
  ⟨(sync_created_folder_unmirrored (example_folder "Inbox" EEwsFolderType.mail) []
      example_state (by decide)).1,
    (sync_created_folder_unmirrored (example_folder "Inbox" EEwsFolderType.mail)
      [example_folder "A" EEwsFolderType.calendar] example_state (by decide)).2.2.2⟩

/-- Claim C12, counterexample.  At the new backend, which has no connection
yet, `create_resource` on a source without extension authenticates first.
When the authentication fails the result is the authentication error, not an
invalid-argument error; when it succeeds the invalid-argument error is
returned after one authentication attempt, and the new connection has been
published. -/
theorem create_resource_without_extension_counterexample :
    plain_source.address_book = none ∧ plain_source.calendar = none ∧
    plain_source.task_list = none ∧ example_state.priv.connection = none ∧
    (ews_backend_create_resource_sync (some denied)
      (Except.ok { id := some "F1", change_key := none }) plain_source example_state).1 =
        some denied ∧
    denied.code ≠ GErrorCode.invalid_argument ∧
    (ews_backend_create_resource_sync (some denied)
      (Except.ok { id := some "F1", change_key := none }) plain_source
        example_state).2.2.calls =
      [Call.authenticate { serial := 0, hosturl := some "https://ews.example/EWS" }] ∧
    (ews_backend_create_resource_sync none
      (Except.ok { id := some "F1", change_key := none }) plain_source
        example_state).2.2.calls =
      [Call.authenticate { serial := 0, hosturl := some "https://ews.example/EWS" }] ∧
    (ews_backend_create_resource_sync none
      (Except.ok { id := some "F1", change_key := none }) plain_source
        example_state).2.2.priv.connection =
      some { serial := 0, hosturl := some "https://ews.example/EWS" } := by
  refine ⟨rfl, rfl, rfl, rfl, rfl, by decide, rfl, rfl, rfl⟩

/-- Claim C12, witness: the amended claim at `connected_state`. -/
theorem create_resource_without_extension_witness :
    plain_source.address_book = none ∧
    (ews_backend_create_resource_sync none (Except.ok { id := some "F1", change_key := none })
      plain_source connected_state).1 =
        some { code := GErrorCode.invalid_argument
               message := create_resource_message (some "Notes") } ∧
    (ews_backend_create_resource_sync none (Except.ok { id := some "F1", change_key := none })
      plain_source connected_state).2.2 = connected_state :=
  ⟨rfl,
    (create_resource_without_extension none _ plain_source connected_state rfl rfl rfl).1
      { serial := 7, hosturl := some "https://ews.example/EWS" } rfl,
    (create_resource_without_extension none _ plain_source connected_state rfl rfl
      rfl).2.2.2.2.1 { serial := 7, hosturl := some "https://ews.example/EWS" } rfl⟩

/-- Claim C13, witness: the calendar source "Team" at `connected_state`. -/
theorem create_resource_target_and_call_witness :
    (e_ews_backend_ref_connection_sync none connected_state).1 =
      Except.ok { serial := 7, hosturl := some "https://ews.example/EWS" } ∧
    create_resource_target calendar_source = (EEwsFolderType.calendar, some "calendar") ∧
    ∃ tail,
      (ews_backend_create_resource_sync none
        (Except.error { code := GErrorCode.protocol, message := "refused" })
        calendar_source connected_state).2.2.calls =
          (e_ews_backend_ref_connection_sync none connected_state).2.calls ++
            (Call.create_folder { serial := 7, hosturl := some "https://ews.example/EWS" }
              "calendar" (some "Team") EEwsFolderType.calendar :: tail) ∧
      (tail = [] ∨ ∃ registered, tail = [Call.add_source registered]) :=
  ⟨rfl,
    (create_resource_target_and_call none
      (Except.error { code := GErrorCode.protocol, message := "refused" })
      calendar_source connected_state _ rfl).2.1 rfl rfl,
    (create_resource_target_and_call none
      (Except.error { code := GErrorCode.protocol, message := "refused" })
      calendar_source connected_state _ rfl).2.2.2 _ _ rfl⟩

/-- Claim C14, witness: the calendar source "Team" at `connected_state`, the
server answering with the folder id "F1" and change key "ck1". -/
theorem create_resource_success_witness :
    (e_ews_backend_ref_connection_sync none connected_state).1 =
      Except.ok { serial := 7, hosturl := some "https://ews.example/EWS" } ∧
    (ews_backend_create_resource_sync none
      (Except.ok { id := some "F1", change_key := some "ck1" }) calendar_source
        connected_state).1 = none ∧
    ews_backend_folders_lookup
        (ews_backend_create_resource_sync none
          (Except.ok { id := some "F1", change_key := some "ck1" }) calendar_source
            connected_state).2.2 "F1" =
      some (child_added_bindings connected_state
        (created_resource connected_state calendar_source
          { id := some "F1", change_key := some "ck1" })) :=
  ⟨rfl,
    (create_resource_success none { id := some "F1", change_key := some "ck1" } "F1"
      calendar_source connected_state _ rfl (Or.inr (Or.inl rfl)) rfl).1,
    (create_resource_success none { id := some "F1", change_key := some "ck1" } "F1"
      calendar_source connected_state _ rfl (Or.inr (Or.inl rfl)) rfl).2.2.2.2.2.2.2.2.2.2.1⟩

/-- Claim C15, witness: the calendar source "Team" at `connected_state`, the
server refusing to make the folder. -/
theorem create_resource_failure_witness :
    (ews_backend_create_resource_sync none
      (Except.error { code := GErrorCode.protocol, message := "refused" })
      calendar_source connected_state).1 =
        some { code := GErrorCode.protocol, message := "refused" } ∧
    (ews_backend_create_resource_sync none
      (Except.error { code := GErrorCode.protocol, message := "refused" })
      calendar_source connected_state).2.1 = calendar_source ∧
    (ews_backend_create_resource_sync none
      (Except.error { code := GErrorCode.protocol, message := "refused" })
      calendar_source connected_state).2.2.registry = connected_state.registry :=
  ⟨rfl,
    ((create_resource_failure none
      (Except.error { code := GErrorCode.protocol, message := "refused" })
      calendar_source connected_state).2.2.2 _ rfl).1,
    ((create_resource_failure none
      (Except.error { code := GErrorCode.protocol, message := "refused" })
      calendar_source connected_state).2.2.2 _ rfl).2.1⟩

/-- Claim C16, counterexample.  At the new backend, which has no connection
yet, `delete_resource` on a source without the folder extension
authenticates first, and when the authentication fails the result is the
authentication error, not an invalid-argument error. -/
theorem delete_resource_without_extension_counterexample :
    plain_source.ews_folder = none ∧ example_state.priv.connection = none ∧
    (ews_backend_delete_resource_sync (some denied) none plain_source example_state).1 =
      some denied ∧
    denied.code ≠ GErrorCode.invalid_argument := by
  refine ⟨rfl, rfl, rfl, by decide⟩

/-- Claim C16, witness: the amended claim at `connected_state`. -/
theorem delete_resource_without_extension_witness :
    plain_source.ews_folder = none ∧
    (ews_backend_delete_resource_sync none none plain_source connected_state).1 =
      some { code := GErrorCode.invalid_argument
             message := delete_resource_message (some "Notes") } ∧
    (ews_backend_delete_resource_sync none none plain_source connected_state).2.registry =
      connected_state.registry :=
  ⟨rfl,
    (delete_resource_without_extension none none plain_source connected_state rfl).1
      { serial := 7, hosturl := some "https://ews.example/EWS" } rfl,
    (delete_resource_without_extension none none plain_source connected_state rfl).2.2.2.1⟩

/-- Claim C17, witness: the mirrored calendar "A" with folder id "X" at
`connected_mirrored_state`, the remote delete succeeding. -/
theorem delete_resource_hard_delete_witness :
    (e_ews_backend_ref_connection_sync none connected_mirrored_state).1 =
      Except.ok { serial := 7, hosturl := some "https://ews.example/EWS" } ∧
    mirrored_calendar ∈ connected_mirrored_state.registry ∧
    ews_backend_folders_lookup connected_mirrored_state "X" = some mirrored_calendar ∧
    (ews_backend_delete_resource_sync none none mirrored_calendar
      connected_mirrored_state).1 = none ∧
    mirrored_calendar ∉ (ews_backend_delete_resource_sync none none mirrored_calendar
      connected_mirrored_state).2.registry ∧
    ews_backend_folders_lookup (ews_backend_delete_resource_sync none none mirrored_calendar
      connected_mirrored_state).2 "X" = none :=
  ⟨rfl, by decide, by decide,
    ((delete_resource_hard_delete none none mirrored_calendar connected_mirrored_state
      { serial := 7, hosturl := some "https://ews.example/EWS" }
      { id := some "X", change_key := some "ck" } rfl rfl).2.1 rfl).1,
    ((delete_resource_hard_delete none none mirrored_calendar connected_mirrored_state
      { serial := 7, hosturl := some "https://ews.example/EWS" }
      { id := some "X", change_key := some "ck" } rfl rfl).2.1 rfl).2.1,
    ((delete_resource_hard_delete none none mirrored_calendar connected_mirrored_state
      { serial := 7, hosturl := some "https://ews.example/EWS" }
      { id := some "X", change_key := some "ck" } rfl rfl).2.1 rfl).2.2.2
        (by decide) (by decide) "X" rfl⟩

/-! ## Provisioning the directory placeholder -/

theorem add_gal_source_resolved (st : State) (source : ESource)
    (hres : gal_source_resolved st = some source) : ews_backend_add_gal_source st = st := by
  simp [ews_backend_add_gal_source, hres]

theorem add_gal_source_parsed (st : State) (id name : String)
    (hres : gal_source_resolved st = none)
    (hparse : parse_oal_selected st.settings.oal_selected = some (id, name)) :
    ews_backend_add_gal_source st =
      { st with
        priv := { st.priv with
          oal_selected := some id
          folders := g_hash_table_insert id
            (gal_source (e_collection_backend_new_child id st).1 name id) st.priv.folders }
        registry := st.registry ++ [gal_source (e_collection_backend_new_child id st).1 name id]
        next_uid := st.next_uid + 1
        calls := st.calls ++
          [Call.add_source (gal_source (e_collection_backend_new_child id st).1 name id)]
        settings := { st.settings with gal_uid := some st.next_uid } } := by
  simp [ews_backend_add_gal_source, hres, hparse, add_source_eq, registered_form, is_child,
    child_added_bindings, is_mail, tracked_folder_id, gal_source,
    e_collection_backend_new_child]

theorem add_gal_source_new (st : State) (hres : gal_source_resolved st = none) :
    ∃ id name,
      (parse_oal_selected st.settings.oal_selected = some (id, name) ∨
        (parse_oal_selected st.settings.oal_selected = none ∧ id = "global-address-list" ∧
          name = "Global Address List")) ∧
      ews_backend_add_gal_source st =
        { st with
          priv := { st.priv with
            oal_selected := (parse_oal_selected st.settings.oal_selected).map Prod.fst
            folders := g_hash_table_insert id
              (gal_source (e_collection_backend_new_child id st).1 name id) st.priv.folders }
          registry := st.registry ++
            [gal_source (e_collection_backend_new_child id st).1 name id]
          next_uid := st.next_uid + 1
          calls := st.calls ++
            [Call.add_source (gal_source (e_collection_backend_new_child id st).1 name id)]
          settings := { st.settings with gal_uid := some st.next_uid } } := by
  cases hparse : parse_oal_selected st.settings.oal_selected with
  | none =>
    refine ⟨"global-address-list", "Global Address List", Or.inr ⟨rfl, rfl, rfl⟩, ?_⟩
    rw [add_gal_source_unparsed st hres hparse]
    rfl
  | some parsed =>
    obtain ⟨id, name⟩ := parsed
    refine ⟨id, name, Or.inl rfl, ?_⟩
    rw [add_gal_source_parsed st id name hres hparse]
    rfl

theorem gal_source_resolved_after (st : State) (hres : gal_source_resolved st = none) :
    ∃ source, gal_source_resolved (ews_backend_add_gal_source st) = some source := by
  obtain ⟨id, name, _, heq⟩ := add_gal_source_new st hres
  rw [heq]
  have hsome : (List.find? (fun r => decide (r.uid = st.next_uid))
      (st.registry ++ [gal_source (e_collection_backend_new_child id st).1 name id])).isSome =
        true := by
    rw [List.find?_isSome]
    refine ⟨gal_source (e_collection_backend_new_child id st).1 name id, ?_, ?_⟩
    · simp
    · simp [gal_source, e_collection_backend_new_child]
  obtain ⟨source, hs⟩ := Option.isSome_iff_exists.mp hsome
  exact ⟨source, by
    simp only [gal_source_resolved, e_source_registry_server_ref_source]
    exact hs⟩

theorem add_gal_source_twice (st : State) :
    ews_backend_add_gal_source (ews_backend_add_gal_source st) =
      ews_backend_add_gal_source st := by
  cases hres : gal_source_resolved st with
  | some source =>
    rw [add_gal_source_resolved st source hres, add_gal_source_resolved st source hres]
  | none =>
    obtain ⟨source, hs⟩ := gal_source_resolved_after st hres
    exact add_gal_source_resolved _ source hs

/-- Claim C21.  When the directory-source uid stored in the settings resolves
to a registered source, `ews_backend_add_gal_source` returns the state as it
is: registry, call log and stored uid are unchanged.  A second call right
after a first one changes nothing either, so the two calls register at most
one placeholder. -/
theorem add_gal_source_no_op (st : State) :
    (∀ source, gal_source_resolved st = some source →
      ews_backend_add_gal_source st = st ∧
      (ews_backend_add_gal_source st).registry = st.registry ∧
      (ews_backend_add_gal_source st).calls = st.calls ∧
      (ews_backend_add_gal_source st).settings.gal_uid = st.settings.gal_uid) ∧
    ews_backend_add_gal_source (ews_backend_add_gal_source st) =
      ews_backend_add_gal_source st ∧
    (ews_backend_add_gal_source (ews_backend_add_gal_source st)).registry.length ≤
      st.registry.length + 1 := by
  refine ⟨fun source hres => ?_, add_gal_source_twice st, ?_⟩
  · rw [add_gal_source_resolved st source hres]
    exact ⟨rfl, rfl, rfl, rfl⟩
  · rw [add_gal_source_twice st]
    cases hres : gal_source_resolved st with
    | some source =>
      rw [add_gal_source_resolved st source hres]
      exact Nat.le_succ _
    | none =>
      obtain ⟨id, name, _, heq⟩ := add_gal_source_new st hres
      rw [heq]
      simp

/-- Claim C22.  When no stored directory-source uid resolves,
`ews_backend_add_gal_source` registers exactly one new source through one
`add_source` call.  The source is a child of the collection, has the
address-book extension with backend name "ews", carries the selected
directory id (the id parsed from the selection, or "global-address-list")
on its folder extension and the selected name as display name, has
autocompletion and offline synchronisation switched on, and its uid is then
the directory-source uid of the settings. -/
theorem add_gal_source_registers_placeholder (st : State)
    (hres : gal_source_resolved st = none) :
    ∃ placeholder : ESource,
      (ews_backend_add_gal_source st).registry = st.registry ++ [placeholder] ∧
      (ews_backend_add_gal_source st).calls = st.calls ++ [Call.add_source placeholder] ∧
      placeholder.parent = some st.collection_uid ∧
      placeholder.address_book = some { backend_name := some "ews" } ∧
      placeholder.calendar = none ∧ placeholder.task_list = none ∧
      (∀ id name, parse_oal_selected st.settings.oal_selected = some (id, name) →
        placeholder.ews_folder = some { id := some id, change_key := none } ∧
        placeholder.display_name = some name) ∧
      (parse_oal_selected st.settings.oal_selected = none →
        placeholder.ews_folder = some { id := some "global-address-list", change_key := none } ∧
        placeholder.display_name = some "Global Address List") ∧
      placeholder.autocomplete = some true ∧
      placeholder.offline = some true ∧
      (ews_backend_add_gal_source st).settings.gal_uid = some placeholder.uid := by
  obtain ⟨id, name, hparse, heq⟩ := add_gal_source_new st hres
  rw [heq]
  refine ⟨gal_source (e_collection_backend_new_child id st).1 name id, rfl, rfl, rfl, rfl, rfl,
    rfl, fun id2 name2 h2 => ?_, fun h2 => ?_, rfl, rfl, rfl⟩
  · rcases hparse with h | ⟨h, _, _⟩
    · rw [h] at h2
      simp only [Option.some.injEq, Prod.mk.injEq] at h2
      obtain ⟨h3, h4⟩ := h2
      subst h3 h4
      exact ⟨rfl, rfl⟩
    · rw [h] at h2
      cases h2
  · rcases hparse with h | ⟨_, h3, h4⟩
    · rw [h] at h2
      cases h2
    · subst h3 h4
      exact ⟨rfl, rfl⟩

theorem strrchr_colon_append (before after : List Char) (h : ':' ∉ after) :
    strrchr_colon (before ++ ':' :: after) = some (before, after) := by
  induction before with
  | nil => simp [strrchr_colon, strrchr_colon_none after h]
  | cons c rest ih =>
    show strrchr_colon (c :: (rest ++ ':' :: after)) = some (c :: rest, after)
    simp only [strrchr_colon, ih]

/-- Claim C25.  For every id and every name without a colon, the selection
`id ++ ":" ++ name` is parsed into exactly that id and that name, whether or
not the id has colons of its own: the split is at the last colon.  The
placeholder provisioned from it has that id on its folder extension and that
name as display name. -/
theorem parse_oal_selected_round_trip (id name : String) (hname : ':' ∉ name.data) :
    parse_oal_selected (some (id ++ ":" ++ name)) = some (id, name) ∧
    strrchr_colon (id ++ ":" ++ name).data = some (id.data, name.data) ∧
    (∀ st : State, gal_source_resolved st = none →
      st.settings.oal_selected = some (id ++ ":" ++ name) →
      ∃ placeholder : ESource,
        (ews_backend_add_gal_source st).registry = st.registry ++ [placeholder] ∧
        placeholder.ews_folder = some { id := some id, change_key := none } ∧
        placeholder.display_name = some name) := by
  have hdata : (id ++ ":" ++ name).data = id.data ++ ':' :: name.data := by
    simp [String.data_append]
  have hsplit : strrchr_colon (id ++ ":" ++ name).data = some (id.data, name.data) := by
    rw [hdata]
    exact strrchr_colon_append id.data name.data hname
  have hparse : parse_oal_selected (some (id ++ ":" ++ name)) = some (id, name) := by
    simp only [parse_oal_selected, hsplit]
  refine ⟨hparse, hsplit, fun st hres hsel => ?_⟩
  rw [← hsel] at hparse
  rw [add_gal_source_parsed st id name hres hparse]
  exact ⟨_, rfl, rfl, rfl⟩

/-! ## The placeholder in the folder index -/

theorem ref_connection_leaves (auth_error : Option GError) (st : State) :
    FailureLeaves auth_error st (e_ews_backend_ref_connection_sync auth_error st).2 := by
  rcases ref_connection_cases auth_error st with ⟨c, hc, h⟩ | ⟨hc, ha, h⟩ | ⟨e, hc, ha, h⟩
  · rw [h]
    exact ⟨rfl, rfl, rfl, rfl, Or.inl rfl, fun _ => rfl⟩
  · rw [h]
    refine ⟨rfl, rfl, rfl, rfl, Or.inr ⟨hc, ha, rfl⟩, fun hor => ?_⟩
    rcases hor with hor | hor
    · exact absurd hc hor
    · exact absurd ha hor
  · rw [h]
    exact ⟨rfl, rfl, rfl, rfl, Or.inl rfl, fun _ => rfl⟩

/-- Claim C23, as amended.  A failing call of
`e_ews_backend_sync_folders_sync`, `ews_backend_create_resource_sync` or
`ews_backend_delete_resource_sync` returns its error and leaves sync state,
folder index, registry and last-provisioned directory selection as they were
before the call.  The published connection is as before as well, unless no
connection was published and the call authenticated one before it failed;
that connection stays published.  A failing `create_resource` leaves the
source as it was. -/
theorem failing_call_leaves_state (auth_error : Option GError) (st : State) :
    (∀ delta e, (e_ews_backend_sync_folders_sync auth_error delta st).1 = some e →
      FailureLeaves auth_error st (e_ews_backend_sync_folders_sync auth_error delta st).2) ∧
    (∀ reply source e,
      (ews_backend_create_resource_sync auth_error reply source st).1 = some e →
      FailureLeaves auth_error st
        (ews_backend_create_resource_sync auth_error reply source st).2.2 ∧
      (ews_backend_create_resource_sync auth_error reply source st).2.1 = source) ∧
    (∀ reply source e,
      (ews_backend_delete_resource_sync auth_error reply source st).1 = some e →
      FailureLeaves auth_error st
        (ews_backend_delete_resource_sync auth_error reply source st).2) := by
  have hl := ref_connection_leaves auth_error st
  refine ⟨fun delta e hfail => ?_, fun reply source e hfail => ?_,
    fun reply source e hfail => ?_⟩
  · unfold e_ews_backend_sync_folders_sync at hfail ⊢
    generalize e_ews_backend_ref_connection_sync auth_error st = res at hl hfail ⊢
    obtain ⟨r, st1⟩ := res
    cases r with
    | error e1 => exact hl
    | ok connection =>
      cases delta with
      | error e2 => exact hl
      | ok d => cases hfail
  · cases hr : (e_ews_backend_ref_connection_sync auth_error st).1 with
    | error e1 =>
      rw [create_resource_no_connection auth_error reply source st e1 hr]
      exact ⟨hl, rfl⟩
    | ok connection =>
      cases htarget : create_resource_target source with
      | mk folder_type parent =>
        cases parent with
        | none =>
          rw [create_resource_no_target auth_error reply source st connection _ hr htarget]
          exact ⟨hl, rfl⟩
        | some parent_folder_id =>
          cases reply with
          | error e2 =>
            rw [create_resource_remote_error auth_error e2 source st connection _ _ hr
              htarget]
            exact ⟨hl, rfl⟩
          | ok out_folder_id =>
            rw [create_resource_remote_ok auth_error out_folder_id source st connection _ _
              hr htarget] at hfail
            cases hfail
  · cases hr : (e_ews_backend_ref_connection_sync auth_error st).1 with
    | error e1 =>
      rw [delete_resource_no_connection auth_error reply source st e1 hr]
      exact hl
    | ok connection =>
      cases hx : source.ews_folder with
      | none =>
        rw [delete_resource_no_extension auth_error reply source st connection hr hx]
        exact hl
      | some extension =>
        rw [delete_resource_remote auth_error reply source st connection extension hr hx]
          at hfail ⊢
        cases reply with
        | some e2 => exact hl
        | none => cases hfail

/-- Claim C23, counterexample.  At the new backend no connection is
published.  A synchronisation pass whose authentication succeeds and whose
hierarchy request fails returns the error, and the backend then holds
connection 0: the state after the failing call is not the state before
it. -/
theorem failing_call_leaves_state_counterexample :
    example_state.priv.connection = none ∧
    (e_ews_backend_sync_folders_sync none
      (Except.error { code := GErrorCode.network, message := "unreachable" })
      example_state).1 = some { code := GErrorCode.network, message := "unreachable" } ∧
    (e_ews_backend_sync_folders_sync none
      (Except.error { code := GErrorCode.network, message := "unreachable" })
      example_state).2.priv.connection =
        some { serial := 0, hosturl := some "https://ews.example/EWS" } ∧
    (e_ews_backend_sync_folders_sync none
      (Except.error { code := GErrorCode.network, message := "unreachable" })
      example_state).2.priv ≠ example_state.priv := by
  refine ⟨rfl, rfl, rfl, ?_⟩
  decide

/-- Claim C23, witness: the failing pass at `connected_state`, where a
connection is published, leaves the private data as it was. -/
theorem failing_call_leaves_state_witness :
    (e_ews_backend_sync_folders_sync none
      (Except.error { code := GErrorCode.network, message := "unreachable" })
      connected_state).1 = some { code := GErrorCode.network, message := "unreachable" } ∧
    (e_ews_backend_sync_folders_sync none
      (Except.error { code := GErrorCode.network, message := "unreachable" })
      connected_state).2.priv = connected_state.priv :=
  ⟨rfl,
    ((failing_call_leaves_state none connected_state).1
      (Except.error { code := GErrorCode.network, message := "unreachable" }) _ rfl).2.2.2.2.2
      (Or.inl (by decide))⟩

theorem child_added_untracked (source : ESource) (st : State)
    (h : tracked_folder_id source = none) : (ews_backend_child_added source st).2 = st := by
  have hb := tracked_folder_id_bindings st source
  rw [h] at hb
  unfold tracked_folder_id at hb
  unfold ews_backend_child_added
  cases hf : (child_added_bindings st source).ews_folder with
  | none => simp [hf]
  | some extension =>
    rw [hf] at hb
    simp only at hb
    simp [hf, hb]

/-- Claim C24, as amended.  A created entry whose folder id is NULL is
passed over: the state is unchanged, so no source is made or registered and
the folder index gains no entry, and the loop goes on.  A child-added
notification for a source without a folder id (no folder extension, or a
NULL id) changes nothing, and registering such a source leaves the folder
index as it was.  The empty string is a folder id like any other: a created
entry of a mirrored type whose id is the empty string and not yet in the
folder index is registered under the key "". -/
theorem null_folder_id_skipped (st : State) :
    (∀ folder : EEwsFolder, folder.fid.id = none →
      sync_created_folder folder st = st ∧
      ∀ rest, ews_backend_sync_created_folders (folder :: rest) st =
        ews_backend_sync_created_folders rest st) ∧
    (∀ source : ESource, tracked_folder_id source = none →
      (ews_backend_child_added source st).2 = st ∧
      (e_source_registry_server_add_source source st).priv.folders = st.priv.folders) ∧
    (∀ folder : EEwsFolder, folder.fid.id = some "" →
      mirrored_type folder.folder_type = true →
      ews_backend_folders_contains st "" = false →
      (sync_created_folder folder st).registry = st.registry ++ [mirrored_source folder "" st] ∧
      ews_backend_folders_lookup (sync_created_folder folder st) "" =
        some (mirrored_source folder "" st)) := by
  refine ⟨fun folder hid => ?_, fun source h => ?_, fun folder hid hkind hnew => ?_⟩
  · have hskip := sync_created_folder_skip folder st (Or.inl hid)
    refine ⟨hskip, fun rest => ?_⟩
    simp only [ews_backend_sync_created_folders, hskip]
  · refine ⟨child_added_untracked source st h, ?_⟩
    rw [add_source_eq]
    simp [h]
  · rw [sync_created_folder_new folder "" st hid hnew hkind]
    refine ⟨rfl, ?_⟩
    simp only [ews_backend_folders_lookup]
    exact lookup_insert_self _ _ _

/-- Claim C24, counterexample.  At the new backend a created calendar whose
folder id is the empty string is not skipped: a source is registered for it
and the folder index gains the key "".  A child-added notification for a
source whose folder id is the empty string inserts it into the folder index
under the key "". -/
theorem null_folder_id_skipped_counterexample :
    empty_id_folder.fid.id = some "" ∧
    (sync_created_folder empty_id_folder example_state).registry.length = 1 ∧
    ews_backend_folders_contains (sync_created_folder empty_id_folder example_state) "" =
      true ∧
    tracked_folder_id empty_id_source = some "" ∧
    ews_backend_folders_lookup (ews_backend_child_added empty_id_source example_state).2 "" =
      some empty_id_source := by
  refine ⟨rfl, by decide, by decide, rfl, by decide⟩

/-- Claim C24, witness: a created calendar with a NULL folder id and a child
with a NULL folder id at the new backend. -/
theorem null_folder_id_skipped_witness :
    null_id_folder.fid.id = none ∧
    sync_created_folder null_id_folder example_state = example_state ∧
    tracked_folder_id null_id_source = none ∧
    (ews_backend_child_added null_id_source example_state).2 = example_state :=
  ⟨rfl, ((null_folder_id_skipped example_state).1 null_id_folder rfl).1, rfl,
    ((null_folder_id_skipped example_state).2.1 null_id_source rfl).1⟩

/-- Claim C21, witness: at `sales_state` the stored uid 1 resolves to the
placeholder "Sales". -/
theorem add_gal_source_no_op_witness :
    (gal_source_resolved sales_state).map (fun s => s.display_name) = some (some "Sales") ∧
    ews_backend_add_gal_source sales_state = sales_state ∧
    sales_state.registry.length = 1 :=
  ⟨by decide,
    (add_gal_source_no_op (with_oal_selected example_state (some "abc:Sales"))).2.1,
    by decide⟩

/-- Claim C22, witness: provisioning for the selection "abc:Sales" at the new
backend. -/
theorem add_gal_source_registers_placeholder_witness :
    gal_source_resolved (with_oal_selected example_state (some "abc:Sales")) = none ∧
    ∃ placeholder : ESource,
      sales_state.registry = [placeholder] ∧
      placeholder.parent = some 0 ∧
      placeholder.address_book = some { backend_name := some "ews" } ∧
      placeholder.ews_folder = some { id := some "abc", change_key := none } ∧
      placeholder.autocomplete = some true ∧
      placeholder.offline = some true ∧
      sales_state.settings.gal_uid = some placeholder.uid :=
  ⟨rfl, by
    obtain ⟨placeholder, h1, _, h3, h4, _, _, h7, _, h9, h10, h11⟩ :=
      add_gal_source_registers_placeholder
        (with_oal_selected example_state (some "abc:Sales")) rfl
    exact ⟨placeholder, h1, h3, h4, (h7 "abc" "Sales" (by decide)).1, h9, h10, h11⟩⟩

/-- Claim C25, witness: the id "a:b", which has a colon of its own, and the
name "c". -/
theorem parse_oal_selected_round_trip_witness :
    ':' ∉ "c".data ∧ parse_oal_selected (some ("a:b" ++ ":" ++ "c")) = some ("a:b", "c") :=
  ⟨by decide, (parse_oal_selected_round_trip "a:b" "c" (by decide)).1⟩

end EwsBackend
